import Mathlib

/-!
Shallow embedding of the MoneyMageProto budget engine
(`utilities.py`, `get_sums.py`, `budget_functions.py`, `parse_budget.py`,
`BudgetMeeting.py`) in Lean 4, together with theorems settling the frozen
claims about its specification.

Modelling conventions:
* Python `float` amounts are modelled as `ℚ` (exact arithmetic).
* `datetime.date` is modelled by the `Date` structure below; Python's
  calendar rules (leap years, month lengths) are reproduced exactly.
* Python functions that read the wall clock (`date.today()`,
  `datetime.today()`) receive the current date (or its month / year)
  as an explicit extra parameter.
* Heterogeneous spreadsheet cells are modelled by the `Cell` inductive;
  a column-oriented ledger (`dict` of lists in Python) is an association
  list from column names to cell lists (`Dict` below), with Python's
  insertion-order dict-assignment semantics (`dictSet`).
* Python exceptions raised deliberately by the code (`raise Exception(...)`)
  are modelled with `Except String`.  Out-of-range list indexing (which
  would be an uncaught `IndexError` in Python) is totalised with default
  values (`List.getD`); theorems carry hypotheses keeping them inside the
  in-range cases whenever the indexed access matters.
-/

namespace MoneyMage

/-- Model of `datetime.date`: a calendar date. -/
structure Date where
  year : Int
  month : Nat
  day : Nat
deriving DecidableEq, Repr

/-- Python leap-year rule used by `datetime` (Gregorian). -/
def isLeap (y : Int) : Bool := y % 4 == 0 && (y % 100 != 0 || y % 400 == 0)

/-- Number of days in a month, as in Python's `datetime`/`calendar`. -/
def daysInMonth (y : Int) (m : Nat) : Nat :=
  if m = 2 then (if isLeap y then 29 else 28)
  else if m = 4 ∨ m = 6 ∨ m = 9 ∨ m = 11 then 30
  else 31

/-- A structurally valid calendar date. -/
def Date.valid (d : Date) : Prop :=
  1 ≤ d.month ∧ d.month ≤ 12 ∧ 1 ≤ d.day ∧ d.day ≤ daysInMonth d.year d.month

instance (d : Date) : Decidable d.valid := by
  unfold Date.valid; infer_instance

/-- Model of `my_date - timedelta(days=1)`: the previous calendar day. -/
def predDay (d : Date) : Date :=
  if 1 < d.day then ⟨d.year, d.month, d.day - 1⟩
  else if 1 < d.month then ⟨d.year, d.month - 1, daysInMonth d.year (d.month - 1)⟩
  else ⟨d.year - 1, 12, 31⟩

/-- Model of `my_date + timedelta(days=1)`: the next calendar day. -/
def succDay (d : Date) : Date :=
  if d.day < daysInMonth d.year d.month then ⟨d.year, d.month, d.day + 1⟩
  else if d.month < 12 then ⟨d.year, d.month + 1, 1⟩
  else ⟨d.year + 1, 1, 1⟩

/-- `utilities.end_of_month`: `date(y + int(m / 12), m % 12 + 1, 1) - timedelta(days=1)`. -/
def end_of_month (my_date : Date) : Date :=
  predDay ⟨my_date.year + (my_date.month / 12 : Nat), my_date.month % 12 + 1, 1⟩

/-- Lexicographic `≤` on dates, as Python compares `datetime.date` values. -/
def dateLEb (a b : Date) : Bool :=
  if a.year = b.year then
    (if a.month = b.month then a.day ≤ b.day else a.month < b.month)
  else a.year < b.year

/-- Lexicographic `<` on dates. -/
def dateLTb (a b : Date) : Bool :=
  if a.year = b.year then
    (if a.month = b.month then a.day < b.day else a.month < b.month)
  else a.year < b.year

/-- One spreadsheet cell: a number (Python `float`/`int`), a string, or a date. -/
inductive Cell where
  | num (q : ℚ)
  | str (s : String)
  | date (d : Date)
deriving DecidableEq, Repr

/-- Numeric value of a cell; non-numbers give `0` (used only where the
Python pipeline has already coerced the column to floats). -/
def asNum (c : Cell) : ℚ :=
  match c with
  | .num q => q
  | _ => 0

/-- String value of a cell; used only where the Python column holds strings. -/
def cellStr (c : Cell) : String :=
  match c with
  | .str s => s
  | _ => ""

/-- Date value of a cell; used only where the Python column holds dates. -/
def cellDate (c : Cell) : Date :=
  match c with
  | .date d => d
  | _ => ⟨0, 1, 1⟩

/-- `utilities.remove_list_blanks`: floats kept, ints made floats, anything
else becomes `0.0`. -/
def remove_list_blanks (my_list : List Cell) : List ℚ :=
  my_list.map asNum

/-- `utilities.in_this_month`: same year and same month. -/
def in_this_month (my_date this_date : Date) : Bool :=
  my_date.year == this_date.year && my_date.month == this_date.month

/-- Model of Python `range(a, b)` over integers. -/
def intRange (a b : Int) : List Int :=
  (List.range (b - a).toNat).map (fun (i : Nat) => a + (i : Int))

/-- `utilities.range_eom_dates`: the month-end dates of every calendar month
from `first_date`'s month through `last_date`'s month inclusive. -/
def range_eom_dates (first_date last_date : Date) : List Date :=
  let start_month : Int := first_date.month
  let end_months : Int := (last_date.year - first_date.year) * 12 + last_date.month + 1
  (intRange start_month end_months).map (fun m =>
    end_of_month ⟨(m - 1) / 12 + first_date.year, ((m - 1) % 12).toNat + 1, 1⟩)

/-- Month index of a date on the infinite month line: `12 * year + (month - 1)`. -/
def monthIdx (d : Date) : Int := 12 * d.year + (d.month : Int) - 1

/-- The month-end date of the month with index `k` on the month line. -/
def monthEndOfIdx (k : Int) : Date :=
  ⟨k / 12, (k % 12).toNat + 1, daysInMonth (k / 12) ((k % 12).toNat + 1)⟩

/-- Python truthiness of an optional string (`None` and `""` are falsy). -/
def truthyStr (s : Option String) : Bool :=
  match s with
  | none => false
  | some s => s ≠ ""

/-- Python truthiness of an optional list (`None` and `[]` are falsy). -/
def truthyList {α : Type} (l : Option (List α)) : Bool :=
  match l with
  | none => false
  | some l => !l.isEmpty

/-- Whether row `d` passes the category filter of `get_sums.py`
(`if category and transactions_categories: if category != transactions_categories[d]: continue`). -/
def rowCounted (category : Option String) (tcats : Option (List String)) (d : Nat) : Bool :=
  if truthyStr category && truthyList tcats then
    decide ((tcats.getD []).getD d "" = category.getD "")
  else true

/-- `get_sums.get_monthly_sums`: bucket the rows passing the category filter
into the contiguous month-end sequence spanning the dates' range. -/
def get_monthly_sums (category : Option String) (dates : List Date) (amounts : List Cell)
    (tcats : Option (List String)) : List (Date × ℚ) :=
  if dates = [] then []
  else
    let dates_sorted := dates.mergeSort dateLEb
    let monthly_dates := range_eom_dates (dates_sorted.headD ⟨0, 1, 1⟩)
        (dates_sorted.getLastD ⟨0, 1, 1⟩)
    let amounts_in := remove_list_blanks amounts
    let monthly_sums := (List.range dates.length).foldl (fun sums d =>
      if rowCounted category tcats d then
        let i_month := ((List.range monthly_dates.length).filter (fun i =>
          in_this_month (dates.getD d ⟨0, 1, 1⟩) (monthly_dates.getD i ⟨0, 1, 1⟩)))
        match i_month with
        | [] => sums
        | i :: _ => sums.set i (sums.getD i 0 + amounts_in.getD d 0)
      else sums) (List.replicate monthly_dates.length (0 : ℚ))
    monthly_dates.zip monthly_sums

/-- The fixed quarter partition `[[1,2,3],[4,5,6],[7,8,9],[10,11,12]]`. -/
def quarterly_months : List (List Nat) := [[1, 2, 3], [4, 5, 6], [7, 8, 9], [10, 11, 12]]

/-- First quarter index whose month list contains `m`
(`[i for i, x in enumerate(quarterly_months) if m in x][0]`). -/
def quarterIdx (m : Nat) : Nat :=
  (((List.range 4).filter (fun i => (quarterly_months.getD i []).contains m)).headD 0)

/-- `get_sums.get_quarterly_sums`; `todayMonth` models `datetime.today().month`.
Returns `(spent, remaining)` as enumerated `(index, value)` pairs. -/
def get_quarterly_sums (category : Option String) (dates : List Date) (amounts : List ℚ)
    (tcats : Option (List String)) (expense : List ℚ) (todayMonth : Nat) :
    List (Nat × ℚ) × List (Nat × ℚ) :=
  let quarterly_sums := (List.range dates.length).foldl (fun sums d =>
    if rowCounted category tcats d then
      let i := quarterIdx (dates.getD d ⟨0, 1, 1⟩).month
      sums.set i (sums.getD i 0 + amounts.getD d 0)
    else sums) (List.replicate 4 (0 : ℚ))
  let this_quarter := quarterIdx todayMonth
  let spent := quarterly_sums.enum
  let remaining := (List.range 4).map (fun i =>
    if i = this_quarter then
      (if quarterly_sums.getD i 0 < expense.getD i 0 then (i, (0 : ℚ))
       else (i, expense.getD i 0 - quarterly_sums.getD i 0))
    else if i < this_quarter then (i, (0 : ℚ))
    else (i, expense.getD i 0))
  (spent, remaining)

/-- A column-oriented ledger: Python `dict` of column name to list of cells,
with insertion order. -/
abbrev Dict : Type := List (String × List Cell)

/-- Python `key in d.keys()`. -/
def hasKey (d : Dict) (k : String) : Bool := d.any (fun kv => kv.1 = k)

/-- Python `d[key]` where the key is present (missing keys give the empty
column here; the raising `KeyError` semantics of `__getitem__` is carried by
`dictGetE` below, and `dictGetE_ok` shows the two agree on present keys —
theorems relying on a read carry the matching `hasKey` hypothesis). -/
def dictGet (d : Dict) (k : String) : List Cell :=
  match d.find? (fun kv => kv.1 = k) with
  | some kv => kv.2
  | none => []

/-- Python `d[key] = v`: replace in place if present, else append (dicts keep
insertion order). -/
def dictSet (d : Dict) (k : String) (v : List Cell) : Dict :=
  if hasKey d k then d.map (fun kv => if kv.1 = k then (k, v) else kv)
  else d ++ [(k, v)]

/-- Length of the longest column (`max([len(my_dict[x]) for x in keys])`,
with `0` for the empty dict where Python would raise). -/
def dictMaxLen (d : Dict) : Nat := (d.map (fun kv => kv.2.length)).foldl max 0

/-- `utilities.make_dict_list_same_len`: pad every column at the tail with
empty-string cells up to the longest column's length. -/
def make_dict_list_same_len (my_dict : Dict) : Dict :=
  let longest := dictMaxLen my_dict
  my_dict.map (fun kv => (kv.1, kv.2 ++ List.replicate (longest - kv.2.length) (Cell.str "")))

/-- `budget_functions.get_reconciled_budget`: keep the rows whose `R` cell is
non-empty. This is the value on a ledger that has an `R` column; the raising
read of `budget['R']` is carried by `get_reconciled_budgetE` below. -/
def get_reconciled_budget (budget : Dict) : Dict :=
  let i_reconciled := ((dictGet budget "R").enum.filter
    (fun p => p.2 ≠ Cell.str "")).map (fun p => p.1)
  budget.map (fun kv => (kv.1, i_reconciled.map (fun i => kv.2.getD i (Cell.str ""))))

/-- `budget_functions.get_forward_budget`: keep the rows whose `R` cell is
empty; an empty dict or empty `R` column is returned unchanged. This is the
value on a ledger that has an `R` column; the raising read of `budget['R']`
on a non-empty ledger is carried by `get_forward_budgetE` below. -/
def get_forward_budget (budget : Dict) : Dict :=
  if budget.isEmpty then budget
  else if (dictGet budget "R").isEmpty then budget
  else
    let i_not_reconciled := ((dictGet budget "R").enum.filter
      (fun p => p.2 = Cell.str "")).map (fun p => p.1)
    budget.map (fun kv => (kv.1, i_not_reconciled.map (fun i => kv.2.getD i (Cell.str ""))))

/-- Lexicographic `>` on `(date, amount)` pairs, as Python compares the
tuples in `make_monthly_table` (line `actual_monthly_sums[-1] > all_planned_monthly_sums[-1]`). -/
def pairGTb (a b : Date × ℚ) : Bool :=
  if a.1 = b.1 then b.2 < a.2 else dateLTb b.1 a.1

/-- First value of `sums` at month-end `x`
(`[y[1] for y in sums if y[0] == x][0] if [...] else 0.0`). -/
def sumsAt (sums : List (Date × ℚ)) (x : Date) : ℚ :=
  (((sums.filter (fun y => y.1 = x)).map (fun y => y.2)).headD 0)

/-- The columns computed by `make_monthly_table` before the final
`make_dict_list_same_len` call, starting from `category_budget`. -/
def make_monthly_table_core (actual_monthly_sums all_planned_monthly_sums
    reconciled_monthly_sums : List (Date × ℚ)) (category_budget : Dict)
    (this_year : Int) : Dict :=
  let planned := if all_planned_monthly_sums.isEmpty then
      (range_eom_dates ⟨this_year, 1, 1⟩ ⟨this_year, 12, 31⟩).map (fun x => (x, (0 : ℚ)))
    else all_planned_monthly_sums
  let dfl : Date × ℚ := (⟨0, 1, 1⟩, 0)
  let first_date := if actual_monthly_sums.isEmpty then (planned.headD dfl).1
    else (actual_monthly_sums.headD dfl).1
  let last_date := if actual_monthly_sums.isEmpty then (planned.getLastD dfl).1
    else (if pairGTb (actual_monthly_sums.getLastD dfl) (planned.getLastD dfl) then
        (actual_monthly_sums.getLastD dfl).1
      else (planned.getLastD dfl).1)
  let all_months := range_eom_dates first_date last_date
  let actualCol : List ℚ := if actual_monthly_sums.isEmpty then all_months.map (fun _ => 0)
    else all_months.map (fun x => sumsAt actual_monthly_sums x)
  let reconCol : List ℚ := all_months.map (fun x => sumsAt reconciled_monthly_sums x)
  let diffCol : List ℚ := actualCol.zipWith (fun a r => a - r) reconCol
  let plannedCol : List ℚ := all_months.map (fun x => sumsAt planned x)
  let d := dictSet category_budget "End of Month" (all_months.map Cell.date)
  let d := dictSet d "Actual" (actualCol.map Cell.num)
  let d := dictSet d "Reconciled" (reconCol.map Cell.num)
  let d := dictSet d "Difference" (diffCol.map Cell.num)
  let d := dictSet d "Planned" (plannedCol.map Cell.num)
  d

/-- `budget_functions.make_monthly_table`: add the month-by-month
`End of Month` / `Actual` / `Reconciled` / `Difference` / `Planned` table to the
ledger and equalize all column lengths. -/
def make_monthly_table (actual_monthly_sums all_planned_monthly_sums
    reconciled_monthly_sums : List (Date × ℚ)) (category_budget : Dict)
    (this_year : Int) : Dict :=
  make_dict_list_same_len (make_monthly_table_core actual_monthly_sums
    all_planned_monthly_sums reconciled_monthly_sums category_budget this_year)

/-- A projection row: the 6-tuple `(date, description, amount, category, balance, note)`. -/
structure ProjEvent where
  date : Date
  desc : String
  amount : ℚ
  category : String
  balance : ℚ
  note : String
deriving DecidableEq, Repr

/-- Python `my_date.strftime("%B")`: the English month name. -/
def monthName (m : Nat) : String :=
  match m with
  | 1 => "January" | 2 => "February" | 3 => "March" | 4 => "April"
  | 5 => "May" | 6 => "June" | 7 => "July" | 8 => "August"
  | 9 => "September" | 10 => "October" | 11 => "November" | 12 => "December"
  | _ => ""

/-- `budget_functions.get_year_projection`: forward planned rows plus actual
monthly totals, both with exact zeros dropped. -/
def get_year_projection (category : String) (forward_category_budget : Dict)
    (actual_monthly_sums : List (Date × ℚ)) : List ProjEvent :=
  let this_key := if hasKey forward_category_budget "Payment" then "Payment" else "This Year"
  let future_transactions := ((dictGet forward_category_budget "Date").enum.map (fun p =>
    let x := cellDate p.2
    ProjEvent.mk x
      (cellStr ((dictGet forward_category_budget "Desc.").getD p.1 (Cell.str "")) ++
        " in " ++ monthName x.month ++ " " ++ toString x.year)
      (asNum ((dictGet forward_category_budget this_key).getD p.1 (Cell.str "")))
      category 0
      (cellStr ((dictGet forward_category_budget "Note").getD p.1 (Cell.str ""))))).filter
    (fun e => e.amount ≠ 0)
  let actual_monthly_totals := if actual_monthly_sums.isEmpty then []
    else (actual_monthly_sums.map (fun x =>
      ProjEvent.mk x.1
        (category ++ " total for " ++ monthName x.1.month ++ " " ++ toString x.1.year)
        x.2 category 0 "")).filter (fun e => e.amount ≠ 0)
  actual_monthly_totals ++ future_transactions

/-- Dates of a ledger's `Date` column (in scope the column holds dates). -/
def dateCol (cb : Dict) (k : String) : List Date := (dictGet cb k).map cellDate

/-- `budget_functions.parse_loan_budget`. -/
def parse_loan_budget (category : String) (category_budget : Dict)
    (actual_monthly_sums : List (Date × ℚ)) (this_year : Int) :
    Except String (Dict × List ProjEvent × List (Date × ℚ)) :=
  if ¬ hasKey category_budget "Payment" then
    Except.error ("Payment is not in " ++ category)
  else
    let forward_category_budget := get_forward_budget category_budget
    let reconciled_category_budget := get_reconciled_budget category_budget
    let all_planned_monthly_sums := get_monthly_sums none (dateCol category_budget "Date")
      (dictGet category_budget "Payment") none
    let reconciled_monthly_sums := get_monthly_sums none (dateCol reconciled_category_budget "Date")
      (dictGet reconciled_category_budget "Payment") none
    let category_budget := make_monthly_table actual_monthly_sums all_planned_monthly_sums
      reconciled_monthly_sums category_budget this_year
    let year_projection := get_year_projection category forward_category_budget actual_monthly_sums
    Except.ok (category_budget, year_projection, [])

/-- The transaction stream: parallel `Date` / `Amount` / `Category` columns. -/
structure Trans where
  dates : List Date
  amounts : List ℚ
  cats : List String
deriving DecidableEq, Repr

/-- `budget_functions.parse_quarterly_budget`; `todayMonth` models
`datetime.today().month` used by `get_quarterly_sums`. -/
def parse_quarterly_budget (category : String) (category_budget : Dict)
    (transactions : Option Trans) (this_year : Int) (todayMonth : Nat) :
    Dict × List ProjEvent × List (Date × ℚ) :=
  let sr := match transactions with
    | some t => get_quarterly_sums (some category) t.dates t.amounts (some t.cats)
        ((dictGet category_budget "This Year").map asNum) todayMonth
    | none => get_quarterly_sums (some category) [] [] (some [])
        ((dictGet category_budget "This Year").map asNum) todayMonth
  let quarterly_spent := sr.1
  let quarterly_remaining := sr.2
  let category_budget := dictSet category_budget "Spent"
    (quarterly_spent.map (fun x => Cell.num x.2))
  let category_budget := dictSet category_budget "Remaining"
    (quarterly_remaining.map (fun x => Cell.num x.2))
  let quarter_dates : List Date := [⟨this_year, 3, 31⟩, ⟨this_year, 6, 30⟩,
    ⟨this_year, 9, 30⟩, ⟨this_year, 12, 31⟩]
  let multi_year_projection := (List.range 4).map (fun i =>
    (quarter_dates.getD i ⟨0, 1, 1⟩, asNum ((dictGet category_budget "Next Year").getD i (Cell.str ""))))
  let future_transactions := (quarter_dates.enum.map (fun p =>
    ProjEvent.mk p.2 ("Planned " ++ category ++ " for Quarter " ++ toString (p.1 + 1) ++
      " in " ++ monthName p.2.month ++ " " ++ toString p.2.year)
      (quarterly_remaining.getD p.1 (0, 0)).2 category 0 "")).filter (fun e => e.amount ≠ 0)
  let actual_monthly_totals := (quarter_dates.enum.map (fun p =>
    ProjEvent.mk p.2 (category ++ " total for Quarter " ++ toString (p.1 + 1) ++ " " ++
      toString p.2.year) (quarterly_spent.getD p.1 (0, 0)).2 category 0 "")).filter
    (fun e => e.amount ≠ 0)
  (category_budget, actual_monthly_totals ++ future_transactions, multi_year_projection)

/-- The `remaining` loop of `parse_monthly_budget`: `value` carries across
iterations and is written for each of the 12 months. -/
def monthly_remaining_loop (planned : List ℚ) (actual_monthly_sums : List (Date × ℚ))
    (this_month : Nat) : List ℚ :=
  ((List.range 12).foldl (fun st i =>
    let v1 := if i + 1 < this_month then (0 : ℚ) else st.1
    let v2 := if i + 1 = this_month then
        (let w := if i < actual_monthly_sums.length then
            planned.getD i 0 - (actual_monthly_sums.getD i (⟨0, 1, 1⟩, 0)).2
          else planned.getD i 0
         if 0 < w then 0 else w)
      else v1
    let v3 := if this_month < i + 1 then planned.getD i 0 else v2
    (v3, st.2 ++ [v3])) ((0 : ℚ), ([] : List ℚ))).2

/-- `budget_functions.parse_monthly_budget`; `todayMonth` / `todayYear` model
`date.today()`. -/
def parse_monthly_budget (category : String) (category_budget : Dict)
    (actual_monthly_sums : List (Date × ℚ)) (todayMonth : Nat) (todayYear : Int) :
    Dict × List ProjEvent × List (Date × ℚ) :=
  let planned := (dictGet category_budget "Planned").map asNum
  let remaining := monthly_remaining_loop planned actual_monthly_sums todayMonth
  let sYP := actual_monthly_sums.enum.map (fun p => p.2.2 - planned.getD p.1 0)
  let category_budget := dictSet category_budget "Spent - Yearly Planned" (sYP.map Cell.num)
  let sYP12 := (List.range 12).map (fun i => if i < sYP.length then sYP.getD i 0 else 0)
  let category_budget := dictSet category_budget "Spent - Yearly Planned" (sYP12.map Cell.num)
  let category_budget := dictSet category_budget "Remaining" (remaining.map Cell.num)
  let spent := actual_monthly_sums.map (fun x => x.2) ++
    List.replicate (12 - actual_monthly_sums.length) (0 : ℚ)
  let category_budget := dictSet category_budget "Spent" (spent.map Cell.num)
  let monthly_dates := (List.range 12).map (fun i => end_of_month ⟨todayYear, i + 1, 1⟩)
  let future_transactions := (monthly_dates.enum.map (fun p =>
    ProjEvent.mk p.2 ("Planned " ++ category ++ " for " ++ monthName p.2.month ++ " " ++
      toString p.2.year) (remaining.getD p.1 0) category 0 "")).filter (fun e => e.amount ≠ 0)
  let actual_monthly_totals := (monthly_dates.enum.map (fun p =>
    ProjEvent.mk p.2 (category ++ " total for Month " ++ toString (p.1 + 1) ++ " " ++
      toString p.2.year) (spent.getD p.1 0) category 0 "")).filter (fun e => e.amount ≠ 0)
  let multi_year_projection := (List.range 12).map (fun i =>
    (end_of_month ⟨todayYear, i + 1, 1⟩, asNum ((dictGet category_budget "Next Year").getD i (Cell.str ""))))
  (category_budget, actual_monthly_totals ++ future_transactions, multi_year_projection)

/-- The removal of any pre-existing synthetic `Yearly` rows at the start of
`parse_yearly_expense`. -/
def removeYearlyRows (category_budget : Dict) : Dict :=
  let desc := dictGet category_budget "Desc."
  if desc.any (fun x => x = Cell.str "Yearly") then
    category_budget.map (fun kv => (kv.1,
      (desc.enum.filter (fun p => p.2 ≠ Cell.str "Yearly")).map
        (fun p => kv.2.getD p.1 (Cell.str ""))))
  else category_budget

/-- First index of the cell `str s` in a column
(`[i for i, x in enumerate(col) if x == s][0]`, `none` when absent). -/
def pyFindIdx (col : List Cell) (s : String) : Option Nat :=
  ((col.enum.filter (fun p => p.2 = Cell.str s)).map (fun p => p.1)).head?

/-- `budget_functions.parse_yearly_expense`; `todayYear` models
`date.today().year` used for the synthetic row's date. -/
def parse_yearly_expense (category : String) (category_budget : Dict)
    (actual_monthly_sums : List (Date × ℚ)) (expenses : Dict) (todayYear : Int) :
    Except String Dict :=
  let category_budget := removeYearlyRows category_budget
  let forward_budget := get_forward_budget category_budget
  match pyFindIdx (dictGet expenses "Category") category with
  | none => Except.error ("Category " ++ category ++ " not in Expenses sheet")
  | some i_expense =>
    let this_years_plan := asNum ((dictGet expenses "This Year").getD i_expense (Cell.str ""))
    let next_years_plan := asNum ((dictGet expenses "Next Year").getD i_expense (Cell.str ""))
    let next_years_plan_to_date := (remove_list_blanks (dictGet category_budget "Next Year")).sum
    let this_years_leftover := this_years_plan -
      ((actual_monthly_sums.map (fun x => x.2)).sum +
        ((dictGet forward_budget "This Year").map asNum).sum)
    let this_years_leftover := if 0 < this_years_leftover then 0 else this_years_leftover
    let next_years_leftover := next_years_plan - next_years_plan_to_date
    let next_years_leftover := if 0 < next_years_leftover then 0 else next_years_leftover
    let category_budget := dictSet category_budget "This Year"
      (dictGet category_budget "This Year" ++ [Cell.num this_years_leftover])
    let category_budget := dictSet category_budget "Next Year"
      (dictGet category_budget "Next Year" ++ [Cell.num next_years_leftover])
    let category_budget := dictSet category_budget "Date"
      (dictGet category_budget "Date" ++ [Cell.date ⟨todayYear, 12, 31⟩])
    let category_budget := dictSet category_budget "Desc."
      (dictGet category_budget "Desc." ++ [Cell.str "Yearly"])
    Except.ok (make_dict_list_same_len category_budget)

/-- The category-type map: four named sets of category names. -/
structure CategoryTypes where
  loan : List String
  yearly : List String
  quarterly : List String
  monthly : List String
deriving DecidableEq, Repr

/-- The canonical empty 6-column ledger shape. -/
def emptyBudgetShape : Dict :=
  [("Date", []), ("Desc.", []), ("This Year", []), ("R", []), ("Next Year", []), ("Note", [])]

/-- `budget_functions.parse_default_budget`; `todayYear` models
`date.today().year`. -/
def parse_default_budget (category : String) (category_budget : Dict)
    (actual_monthly_sums : List (Date × ℚ)) (expenses : Dict)
    (category_types : CategoryTypes) (this_year : Int) (todayYear : Int) :
    Except String (Dict × List ProjEvent × List (Date × ℚ)) := do
  let category_budget ←
    if ¬ hasKey category_budget "Date" then
      (if category_budget.isEmpty then pure emptyBudgetShape
       else Except.error ("Date not in " ++ category))
    else pure category_budget
  let category_budget ←
    if category_types.yearly.contains category then do
      let cb ← parse_yearly_expense category category_budget actual_monthly_sums expenses todayYear
      let total_planned := match pyFindIdx (dictGet expenses "Category") category with
        | some i => asNum ((dictGet expenses "This Year").getD i (Cell.str ""))
        | none => 0
      let total_spent := (actual_monthly_sums.map (fun x => x.2)).sum
      let remaining := total_planned - total_spent
      let cb := dictSet cb "Remaining" [Cell.num remaining]
      pure (make_dict_list_same_len cb)
    else pure category_budget
  let forward_category_budget := get_forward_budget category_budget
  let reconciled_category_budget := get_reconciled_budget category_budget
  let all_planned_monthly_sums := get_monthly_sums none (dateCol category_budget "Date")
    (dictGet category_budget "This Year") none
  let reconciled_monthly_sums := get_monthly_sums none (dateCol reconciled_category_budget "Date")
    (dictGet reconciled_category_budget "This Year") none
  let multi_year_projection := get_monthly_sums none (dateCol category_budget "Date")
    (dictGet category_budget "Next Year") none
  let category_budget := make_monthly_table actual_monthly_sums all_planned_monthly_sums
    reconciled_monthly_sums category_budget this_year
  let year_projection := get_year_projection category forward_category_budget actual_monthly_sums
  Except.ok (category_budget, year_projection, multi_year_projection)

/-- Python `str.split()`: split on whitespace runs, dropping empty pieces. -/
def pySplit (s : String) : List String :=
  (s.split (fun c => c.isWhitespace)).filter (fun t => t ≠ "")

/-- Python `list(dict.fromkeys(l))`: de-duplicate keeping first occurrences. -/
def pyDedup (l : List String) : List String :=
  l.foldl (fun acc x => if acc.contains x then acc else acc ++ [x]) []

/-- The `Desc.` preprocessing at the top of `parse_budget`: rewrite `#`
descriptions to `"<first token> <category>"`, then collapse duplicate words. -/
def renameDescs (category : String) (col : List Cell) : List Cell :=
  let col := col.map (fun x =>
    if (cellStr x).contains '#' then
      Cell.str ((pySplit (cellStr x)).headD "" ++ " " ++ category)
    else x)
  col.map (fun x => Cell.str (" ".intercalate (pyDedup (pySplit (cellStr x)))))

/-- `relativedelta(years=n)`: shift by whole years, clamping the day to the
length of the target month (Feb 29 becomes Feb 28 in a non-leap year). -/
def addYears (d : Date) (n : Int) : Date :=
  ⟨d.year + n, d.month, min d.day (daysInMonth (d.year + n) d.month)⟩

/-- The 5-year forecast replication at the end of `parse_budget`. -/
def makeForecast (category : String) (multi_year_projection : List (Date × ℚ)) :
    List (List ProjEvent) :=
  (List.range 5).map (fun (i : Nat) =>
    (multi_year_projection.filter (fun x => 0 < |x.2|)).map (fun x =>
      ProjEvent.mk (addYears x.1 ((i : Int) + 1))
        ("Forecast: " ++ category ++ " for " ++ monthName x.1.month ++ " " ++
          toString (x.1.year + (i : Int) + 1))
        x.2 category 0 ""))

/-- `parse_budget.parse_budget`; `today` models `date.today()` /
`datetime.today()` as read inside the type-specific parsers. -/
def parse_budget (category : String) (category_budget : Dict) (transactions : Option Trans)
    (expenses : Dict) (category_types : CategoryTypes) (this_year : Int) (today : Date) :
    Except String (Dict × List ProjEvent × List (List ProjEvent)) := do
  let category_budget :=
    if hasKey category_budget "Desc." then
      dictSet category_budget "Desc." (renameDescs category (dictGet category_budget "Desc."))
    else category_budget
  let actual_monthly_sums := match transactions with
    | some t => get_monthly_sums (some category) t.dates (t.amounts.map Cell.num) (some t.cats)
    | none => []
  let r ←
    if category_types.loan.contains category then
      parse_loan_budget category category_budget actual_monthly_sums this_year
    else if category_types.quarterly.contains category then
      pure (parse_quarterly_budget category category_budget transactions this_year today.month)
    else if category_types.monthly.contains category then
      pure (parse_monthly_budget category category_budget actual_monthly_sums today.month today.year)
    else
      parse_default_budget category category_budget actual_monthly_sums expenses category_types
        this_year today.year
  Except.ok (r.1, r.2.1, makeForecast category r.2.2)

/-- Lexicographic `≤` on the 6-tuples
`(date, description, amount, category, balance, note)`, as Python's
`list.sort()` orders them in `make_projection_dict`. -/
def projLEb (a b : ProjEvent) : Bool :=
  if a.date = b.date then
    (if a.desc = b.desc then
      (if a.amount = b.amount then
        (if a.category = b.category then
          (if a.balance = b.balance then a.note ≤ b.note else a.balance < b.balance)
        else a.category < b.category)
      else a.amount < b.amount)
    else a.desc < b.desc)
  else dateLTb a.date b.date

/-- The running-balance loop of `make_projection_dict`:
`current_balance += amount; row[4] = current_balance`, strictly in order. -/
def fillBalances (current_balance : ℚ) : List ProjEvent → List ProjEvent
  | [] => []
  | e :: rest =>
    let b := current_balance + e.amount
    ProjEvent.mk e.date e.desc e.amount e.category b e.note :: fillBalances b rest

/-- Column-oriented view of the master projection
(`projection_dict` in `BudgetMeeting.make_projection_dict`). -/
structure ProjectionDict where
  dateCol : List Date
  descCol : List String
  amountCol : List ℚ
  categoryCol : List String
  balanceCol : List ℚ
  noteCol : List String
deriving DecidableEq, Repr

/-- `BudgetMeeting.find_monthly_sums`: per-category monthly sums of the
events dated before January 1 of `year + 1`. -/
def find_monthly_sums (projection_list : List ProjEvent) (year : Int) :
    List (String × List (Date × ℚ)) :=
  let projection_categories := pyDedup (projection_list.map (fun x => x.category))
  projection_categories.map (fun category =>
    let l := projection_list.filter (fun x =>
      x.category = category && dateLTb x.date ⟨year + 1, 1, 1⟩)
    (category, get_monthly_sums none (l.map (fun x => x.date))
      ((l.map (fun x => x.amount)).map Cell.num) none))

/-- `BudgetMeeting.make_projection_dict`: zip the six parallel columns into
6-tuples (Python `zip` truncates to the shortest), sort lexicographically,
thread the running balance, and return the columns plus the per-category
monthly sums. -/
def make_projection_dict (dates : List Date) (descs : List String) (amounts : List ℚ)
    (cats : List String) (balances : List ℚ) (notes : List String) (balance : ℚ)
    (year : Int) : ProjectionDict × List (String × List (Date × ℚ)) :=
  let projection_tuples := ((((dates.zip descs).zip amounts).zip cats).zip balances).zip notes
  let events := projection_tuples.map (fun t =>
    ProjEvent.mk t.1.1.1.1.1 t.1.1.1.1.2 t.1.1.1.2 t.1.1.2 t.1.2 t.2)
  let sorted := events.mergeSort projLEb
  let filled := fillBalances balance sorted
  let monthly_sums_dict := find_monthly_sums filled year
  (ProjectionDict.mk (filled.map (fun e => e.date)) (filled.map (fun e => e.desc))
    (filled.map (fun e => e.amount)) (filled.map (fun e => e.category))
    (filled.map (fun e => e.balance)) (filled.map (fun e => e.note)), monthly_sums_dict)

/-- The ledger component of a parse result, for stating theorems about the
successful case. -/
def okDict {α : Type} (e : Except String (Dict × α)) : Dict :=
  match e with
  | .ok x => x.1
  | .error _ => []

/-- The ledger returned by `parse_yearly_expense` in the successful case. -/
def okYearly (e : Except String Dict) : Dict :=
  match e with
  | .ok d => d
  | .error _ => []

theorem dictGet_nil (k : String) : dictGet [] k = [] := rfl

theorem dictGet_cons (a : String × List Cell) (d : Dict) (k : String) :
    dictGet (a :: d) k = if a.1 = k then a.2 else dictGet d k := by
  by_cases h : a.1 = k <;> simp [dictGet, List.find?, h]

theorem hasKey_cons (a : String × List Cell) (d : Dict) (k : String) :
    hasKey (a :: d) k = (a.1 = k || hasKey d k) := by
  simp [hasKey, List.any_cons]

theorem dictGet_not_hasKey (d : Dict) (k : String) (h : hasKey d k = false) :
    dictGet d k = [] := by
  induction d with
  | nil => rfl
  | cons a d ih =>
    rw [hasKey_cons] at h
    simp only [Bool.or_eq_false_iff, decide_eq_false_iff_not] at h
    rw [dictGet_cons, if_neg h.1, ih h.2]

theorem dictGet_mapSet_ne (d : Dict) (k k' : String) (v : List Cell) (h : k' ≠ k) :
    dictGet (d.map (fun kv => if kv.1 = k then (k, v) else kv)) k' = dictGet d k' := by
  induction d with
  | nil => rfl
  | cons a d ih =>
    by_cases ha : a.1 = k
    · have h1 : ¬ (k = k') := fun hc => h hc.symm
      have h2 : ¬ (a.1 = k') := by rw [ha]; exact h1
      simp [List.map_cons, ha, dictGet_cons, h1, h2, ih]
    · simp only [List.map_cons, if_neg ha, dictGet_cons, ih]

theorem dictGet_mapSet_self (d : Dict) (k : String) (v : List Cell) (h : hasKey d k = true) :
    dictGet (d.map (fun kv => if kv.1 = k then (k, v) else kv)) k = v := by
  induction d with
  | nil => simp [hasKey] at h
  | cons a d ih =>
    by_cases ha : a.1 = k
    · rw [List.map_cons, if_pos ha, dictGet_cons, if_pos rfl]
    · rw [hasKey_cons] at h
      simp [ha] at h
      rw [List.map_cons, if_neg ha, dictGet_cons, if_neg ha, ih h]

theorem dictGet_append_single (d : Dict) (k k' : String) (v : List Cell) :
    dictGet (d ++ [(k, v)]) k' =
      (if hasKey d k' then dictGet d k' else if k = k' then v else []) := by
  induction d with
  | nil => simp [hasKey, dictGet_cons, dictGet_nil]
  | cons a d ih =>
    rw [List.cons_append, dictGet_cons, dictGet_cons, hasKey_cons, ih]
    by_cases hk : a.1 = k' <;> simp [hk]

theorem dictGet_dictSet (d : Dict) (k k' : String) (v : List Cell) :
    dictGet (dictSet d k v) k' = if k' = k then v else dictGet d k' := by
  unfold dictSet
  by_cases hK : hasKey d k
  · rw [if_pos hK]
    by_cases h : k' = k
    · rw [if_pos h, h, dictGet_mapSet_self d k v hK]
    · rw [if_neg h, dictGet_mapSet_ne d k k' v h]
  · rw [if_neg hK, dictGet_append_single]
    have hKf : hasKey d k = false := by simpa using hK
    by_cases h : k' = k
    · subst h; simp [hKf]
    · rw [if_neg h]
      by_cases hk2 : hasKey d k'
      · simp [hk2]
      · have hk2f : hasKey d k' = false := by simpa using hk2
        have h2 : ¬ (k = k') := fun hc => h hc.symm
        simp [hk2f, h2, dictGet_not_hasKey d k' hk2f]

theorem hasKey_mapSet (d : Dict) (k k' : String) (v : List Cell) :
    hasKey (d.map (fun kv => if kv.1 = k then (k, v) else kv)) k' = hasKey d k' := by
  induction d with
  | nil => rfl
  | cons a d ih =>
    by_cases ha : a.1 = k
    · rw [List.map_cons, if_pos ha, hasKey_cons, hasKey_cons, ih, ha]
    · rw [List.map_cons, if_neg ha, hasKey_cons, hasKey_cons, ih]

theorem hasKey_append_single (d : Dict) (k k' : String) (v : List Cell) :
    hasKey (d ++ [(k, v)]) k' = (hasKey d k' || k = k') := by
  induction d with
  | nil => simp [hasKey]
  | cons a d ih => rw [List.cons_append, hasKey_cons, hasKey_cons, ih, Bool.or_assoc]

theorem hasKey_dictSet (d : Dict) (k k' : String) (v : List Cell) :
    hasKey (dictSet d k v) k' = (hasKey d k' || k' = k) := by
  unfold dictSet
  by_cases hK : hasKey d k
  · rw [if_pos hK, hasKey_mapSet]
    by_cases h : k' = k
    · subst h; simp [hK]
    · simp [h]
  · rw [if_neg hK, hasKey_append_single]
    by_cases h : k' = k
    · subst h; simp
    · have h2 : ¬ (k = k') := fun hc => h hc.symm
      simp [h, h2]

theorem dictGet_mapSnd (d : Dict) (g : List Cell → List Cell) (k : String) :
    dictGet (d.map (fun kv => (kv.1, g kv.2))) k =
      (if hasKey d k then g (dictGet d k) else []) := by
  induction d with
  | nil => rfl
  | cons a d ih =>
    rw [List.map_cons, dictGet_cons, dictGet_cons, hasKey_cons, ih]
    by_cases hk : a.1 = k <;> simp [hk]

theorem not_hasKey_forall (d : Dict) (k : String) (h : hasKey d k = false) :
    ∀ a ∈ d, ¬ (a.1 = k) := by
  intro a ha hc
  have : hasKey d k = true := List.any_eq_true.2 ⟨a, ha, by simp [hc]⟩
  rw [h] at this
  exact Bool.false_ne_true this

theorem dictSet_dictSet (d : Dict) (k : String) (v w : List Cell) :
    dictSet (dictSet d k v) k w = dictSet d k w := by
  by_cases hK : hasKey d k
  · have e1 : dictSet d k v = d.map (fun kv => if kv.1 = k then (k, v) else kv) := by
      unfold dictSet; rw [if_pos hK]
    have e3 : dictSet d k w = d.map (fun kv => if kv.1 = k then (k, w) else kv) := by
      unfold dictSet; rw [if_pos hK]
    have h2 : hasKey (d.map (fun kv => if kv.1 = k then (k, v) else kv)) k = true := by
      rw [hasKey_mapSet]; exact hK
    rw [e1, e3]
    unfold dictSet
    rw [if_pos h2, List.map_map]
    apply List.map_congr_left
    intro a _
    by_cases ha : a.1 = k <;> simp [ha]
  · have hKf : hasKey d k = false := by simpa using hK
    have e1 : dictSet d k v = d ++ [(k, v)] := by
      unfold dictSet; rw [if_neg hK]
    have e3 : dictSet d k w = d ++ [(k, w)] := by
      unfold dictSet; rw [if_neg hK]
    have h2 : hasKey (d ++ [(k, v)]) k = true := by
      rw [hasKey_append_single]; simp
    rw [e1, e3]
    unfold dictSet
    rw [if_pos h2, List.map_append]
    congr 1
    · conv_rhs => rw [← List.map_id d]
      apply List.map_congr_left
      intro a ha
      simp [not_hasKey_forall d k hKf a ha]
    · simp

/-- All entries of `d` whose key is `k` carry the value `v`. -/
def allEq (d : Dict) (k : String) (v : List Cell) : Prop :=
  ∀ kv ∈ d, kv.1 = k → kv.2 = v

theorem allEq_dictSet_self (d : Dict) (k : String) (v : List Cell) :
    allEq (dictSet d k v) k v := by
  intro kv hkv hk
  unfold dictSet at hkv
  by_cases hK : hasKey d k
  · rw [if_pos hK] at hkv
    obtain ⟨a, _, ha⟩ := List.mem_map.1 hkv
    by_cases h : a.1 = k
    · rw [if_pos h] at ha; rw [← ha]
    · rw [if_neg h] at ha; rw [← ha] at hk; exact absurd hk h
  · rw [if_neg hK] at hkv
    rcases List.mem_append.1 hkv with h | h
    · exfalso
      apply hK
      exact List.any_eq_true.2 ⟨kv, h, by simp [hk]⟩
    · rw [List.mem_singleton] at h
      rw [h]

theorem allEq_dictSet_ne (d : Dict) (k k' : String) (v w : List Cell) (h : k' ≠ k)
    (hall : allEq d k v) : allEq (dictSet d k' w) k v := by
  intro kv hkv hk
  unfold dictSet at hkv
  by_cases hK : hasKey d k'
  · rw [if_pos hK] at hkv
    obtain ⟨a, ha, hae⟩ := List.mem_map.1 hkv
    by_cases h2 : a.1 = k'
    · rw [if_pos h2] at hae
      rw [← hae] at hk
      simp at hk
      exact absurd hk h
    · rw [if_neg h2] at hae
      rw [← hae] at hk ⊢
      exact hall a ha hk
  · rw [if_neg hK] at hkv
    rcases List.mem_append.1 hkv with h2 | h2
    · exact hall kv h2 hk
    · rw [List.mem_singleton] at h2
      rw [h2] at hk
      simp at hk
      exact absurd hk h

theorem dictSet_eq_self (d : Dict) (k : String) (v : List Cell)
    (hK : hasKey d k = true) (hall : allEq d k v) : dictSet d k v = d := by
  unfold dictSet
  rw [if_pos hK]
  conv_rhs => rw [← List.map_id d]
  apply List.map_congr_left
  intro a ha
  by_cases h : a.1 = k
  · rw [if_pos h, ← h, ← hall a ha h]
    rfl
  · rw [if_neg h]
    rfl

theorem le_foldl_max (l : List Nat) (a : Nat) : a ≤ l.foldl max a := by
  induction l generalizing a with
  | nil => simp
  | cons b l ih => exact le_trans (le_max_left a b) (ih (max a b))

theorem mem_le_foldl_max (l : List Nat) (x : Nat) : ∀ (a : Nat), x ∈ l → x ≤ l.foldl max a := by
  induction l with
  | nil => intro a hx; simp at hx
  | cons b l ih =>
    intro a hx
    rcases List.mem_cons.1 hx with h | h
    · subst h
      exact le_trans (le_max_right a x) (le_foldl_max l (max a x))
    · exact ih (max a b) h

theorem col_len_le_dictMaxLen (d : Dict) (kv : String × List Cell) (h : kv ∈ d) :
    kv.2.length ≤ dictMaxLen d := by
  exact mem_le_foldl_max _ _ 0 (List.mem_map.2 ⟨kv, h, rfl⟩)

theorem end_of_month_eq (y : Int) (m dd : Nat) (h1 : 1 ≤ m) (h2 : m ≤ 12) :
    end_of_month ⟨y, m, dd⟩ = ⟨y, m, daysInMonth y m⟩ := by
  interval_cases m <;> norm_num [end_of_month, predDay, daysInMonth]

/-- Claim C10: for every calendar date `d`, `end_of_month d` has the same
year and month as `d`, and adding one day to it lands in a different month
(December rolling into January of the following year). -/
theorem claim10_end_of_month (d : Date) (h : d.valid) :
    (end_of_month d).year = d.year ∧ (end_of_month d).month = d.month ∧
    succDay (end_of_month d) =
      (if d.month = 12 then ⟨d.year + 1, 1, 1⟩ else ⟨d.year, d.month + 1, 1⟩) ∧
    (succDay (end_of_month d)).month ≠ d.month := by
  obtain ⟨y, m, dd⟩ := d
  obtain ⟨h1, h2, h3, h4⟩ := h
  rw [end_of_month_eq y m dd h1 h2]
  have hlt : ¬ (daysInMonth y m < daysInMonth y m) := lt_irrefl _
  interval_cases m <;> simp [succDay, daysInMonth, hlt]

/-- Concrete instance of claim C10 at February 10, 2024 (a leap year). -/
theorem claim10_witness :
    (⟨2024, 2, 10⟩ : Date).valid ∧
    ((end_of_month ⟨2024, 2, 10⟩).year = (⟨2024, 2, 10⟩ : Date).year ∧
     (end_of_month ⟨2024, 2, 10⟩).month = (⟨2024, 2, 10⟩ : Date).month ∧
     succDay (end_of_month ⟨2024, 2, 10⟩) =
       (if (⟨2024, 2, 10⟩ : Date).month = 12 then ⟨(⟨2024, 2, 10⟩ : Date).year + 1, 1, 1⟩
        else ⟨(⟨2024, 2, 10⟩ : Date).year, (⟨2024, 2, 10⟩ : Date).month + 1, 1⟩) ∧
     (succDay (end_of_month ⟨2024, 2, 10⟩)).month ≠ (⟨2024, 2, 10⟩ : Date).month) :=
  ⟨by decide, claim10_end_of_month ⟨2024, 2, 10⟩ (by decide)⟩

theorem fillBalances_length (B : ℚ) (l : List ProjEvent) :
    (fillBalances B l).length = l.length := by
  induction l generalizing B with
  | nil => rfl
  | cons e rest ih => simp [fillBalances, ih]

theorem fillBalances_amount (B : ℚ) (l : List ProjEvent) :
    (fillBalances B l).map (fun e => e.amount) = l.map (fun e => e.amount) := by
  induction l generalizing B with
  | nil => rfl
  | cons e rest ih => simp [fillBalances, ih]

theorem getD_map_of_lt {α β : Type} (l : List α) (f : α → β) (k : Nat) (b : β) (d : α)
    (hk : k < l.length) : (l.map f).getD k b = f (l.getD k d) := by
  rw [List.getD_eq_getElem?_getD, List.getD_eq_getElem?_getD, List.getElem?_map,
    List.getElem?_eq_getElem hk]
  rfl

theorem fillBalances_getD_balance (l : List ProjEvent) : ∀ (B : ℚ) (k : Nat), k < l.length →
    ((fillBalances B l).getD k (ProjEvent.mk ⟨0, 1, 1⟩ "" 0 "" 0 "")).balance =
      B + ((l.take (k + 1)).map (fun e => e.amount)).sum := by
  induction l with
  | nil => intro B k hk; simp at hk
  | cons e rest ih =>
    intro B k hk
    cases k with
    | zero => simp [fillBalances]
    | succ k =>
      have hk2 : k < rest.length := by simpa using hk
      simp only [fillBalances, List.getD_cons_succ, List.take_succ_cons, List.map_cons,
        List.sum_cons]
      rw [ih (B + e.amount) k hk2]
      ring

/-- Claim C4: in the master projection, after the lexicographic sort, the
balance of the `k`-th event equals the starting balance plus the sum of the
amounts of the first `k` events of the output. -/
theorem claim4_running_balance (dates : List Date) (descs : List String) (amounts : List ℚ)
    (cats : List String) (balances : List ℚ) (notes : List String) (B : ℚ) (year : Int)
    (k : Nat)
    (hk : k < (make_projection_dict dates descs amounts cats balances notes B year).1.balanceCol.length) :
    (make_projection_dict dates descs amounts cats balances notes B year).1.balanceCol.getD k 0 =
      B + ((make_projection_dict dates descs amounts cats balances notes B year).1.amountCol.take (k + 1)).sum := by
  simp only [make_projection_dict] at hk ⊢
  rw [List.length_map, fillBalances_length] at hk
  rw [getD_map_of_lt _ _ k (0 : ℚ) (ProjEvent.mk ⟨0, 1, 1⟩ "" 0 "" 0 "")
    (by rw [fillBalances_length]; exact hk)]
  rw [fillBalances_getD_balance _ B k hk, fillBalances_amount, ← List.map_take]

/-- Concrete instance of claim C4 on a one-event projection. -/
theorem claim4_witness :
    0 < (make_projection_dict [⟨2025, 1, 31⟩] ["a"] [5] ["c"] [0] [""] 100 2025).1.balanceCol.length ∧
    (make_projection_dict [⟨2025, 1, 31⟩] ["a"] [5] ["c"] [0] [""] 100 2025).1.balanceCol.getD 0 0 =
      100 + ((make_projection_dict [⟨2025, 1, 31⟩] ["a"] [5] ["c"] [0] [""] 100 2025).1.amountCol.take (0 + 1)).sum := by
  have hlen : (make_projection_dict [⟨2025, 1, 31⟩] ["a"] [5] ["c"] [0] [""] 100 2025).1.balanceCol.length = 1 := by
    simp only [make_projection_dict]
    rw [List.length_map, fillBalances_length]
    simp [List.mergeSort_singleton]
  constructor
  · rw [hlen]; norm_num
  · exact claim4_running_balance [⟨2025, 1, 31⟩] ["a"] [5] ["c"] [0] [""] 100 2025 0
      (by rw [hlen]; norm_num)

theorem getD_map_range {β : Type} (n i : Nat) (g : Nat → β) (d : β) (h : i < n) :
    ((List.range n).map g).getD i d = g i := by
  rw [List.getD_eq_getElem?_getD, List.getElem?_map, List.getElem?_range h]
  rfl

theorem enum_getD (l : List ℚ) (i : Nat) (h : i < l.length) :
    l.enum.getD i (0, 0) = (i, l.getD i 0) := by
  rw [List.getD_eq_getElem?_getD, List.getElem?_enum, List.getElem?_eq_getElem h,
    List.getD_eq_getElem?_getD, List.getElem?_eq_getElem h]
  rfl

theorem foldl_length_inv {α β : Type} (f : List α → β → List α)
    (hf : ∀ acc b, (f acc b).length = acc.length) (l : List β) :
    ∀ (acc : List α), (l.foldl f acc).length = acc.length := by
  induction l with
  | nil => intro acc; rfl
  | cons b l ih =>
    intro acc
    rw [List.foldl_cons, ih (f acc b), hf acc b]

theorem get_quarterly_sums_spent_length (category : Option String) (dates : List Date)
    (amounts : List ℚ) (tcats : Option (List String)) (expense : List ℚ) (todayMonth : Nat) :
    (get_quarterly_sums category dates amounts tcats expense todayMonth).1.length = 4 := by
  simp only [get_quarterly_sums, List.enum_length]
  rw [foldl_length_inv]
  · simp
  · intro acc b
    by_cases h : rowCounted category tcats b <;> simp [h]

/-- Claim C1 counterexample: with today in April (quarter 2), a plan of 10
per quarter and a single 30 transaction in April, the code returns a current
quarter remaining of `-20`, not `max(0, 10 - 30) = 0`; in particular the
current quarter's remaining can be negative. -/
theorem claim1_counterexample :
    ((get_quarterly_sums none [⟨2025, 4, 15⟩] [30] none [10, 10, 10, 10] 4).1.getD 1 (0, 0)).2 = 30 ∧
    ((get_quarterly_sums none [⟨2025, 4, 15⟩] [30] none [10, 10, 10, 10] 4).2.getD 1 (0, 0)).2 = -20 ∧
    ¬ (((get_quarterly_sums none [⟨2025, 4, 15⟩] [30] none [10, 10, 10, 10] 4).2.getD 1 (0, 0)).2 =
        max 0 ((10 : ℚ) - 30)) := by
  have hq : quarterIdx 4 = 1 := by decide
  have hq2 : quarterIdx (([⟨2025, 4, 15⟩] : List Date).getD 0 ⟨0, 1, 1⟩).month = 1 := by decide
  refine ⟨?_, ?_, ?_⟩ <;>
    simp [get_quarterly_sums, rowCounted, truthyStr, truthyList, hq, hq2,
      List.range_succ, List.replicate_succ, List.enum] <;>
    norm_num

/-- Claim C1 (amended): `remaining[q]` is `0` for quarters strictly before
the current quarter, `min(0, plan[q] - spent[q])` (so never positive) for the
current quarter, and `plan[q]` for quarters strictly after it. -/
theorem claim1_amended (category : Option String) (dates : List Date) (amounts : List ℚ)
    (tcats : Option (List String)) (expense : List ℚ) (todayMonth : Nat)
    (h1 : 1 ≤ todayMonth) (h2 : todayMonth ≤ 12) (i : Nat) (hi : i < 4) :
    (get_quarterly_sums category dates amounts tcats expense todayMonth).2.getD i (0, 0) =
      (i, if i < quarterIdx todayMonth then (0 : ℚ)
          else if i = quarterIdx todayMonth then
            min 0 (expense.getD i 0 -
              ((get_quarterly_sums category dates amounts tcats expense todayMonth).1.getD i (0, 0)).2)
          else expense.getD i 0) := by
  have hlen : (get_quarterly_sums category dates amounts tcats expense todayMonth).1.length = 4 :=
    get_quarterly_sums_spent_length category dates amounts tcats expense todayMonth
  simp only [get_quarterly_sums] at hlen ⊢
  rw [List.enum_length] at hlen
  rw [getD_map_range 4 i _ _ hi, enum_getD]
  case h => rw [hlen]; exact hi
  by_cases he : i = quarterIdx todayMonth
  · subst he
    rw [if_pos rfl, if_neg (lt_irrefl _), if_pos rfl]
    rcases lt_or_le ((List.foldl _ (List.replicate 4 (0 : ℚ)) (List.range dates.length)).getD
      (quarterIdx todayMonth) 0) (expense.getD (quarterIdx todayMonth) 0) with hlt | hle
    · rw [if_pos hlt, min_eq_left (by linarith)]
    · rw [if_neg (not_lt.2 hle), min_eq_right (by linarith)]
  · rw [if_neg he]
    by_cases hlt : i < quarterIdx todayMonth
    · rw [if_pos hlt, if_pos hlt]
    · rw [if_neg hlt, if_neg hlt, if_neg he]

/-- Concrete instance of claim C1 (amended) with expenses as negative
amounts, today in April. -/
theorem claim1_witness :
    ((1 : Nat) ≤ 4 ∧ (4 : Nat) ≤ 12 ∧ (1 : Nat) < 4) ∧
    (get_quarterly_sums none [⟨2025, 4, 15⟩] [-30] none [-10, -10, -10, -10] 4).2.getD 1 (0, 0) =
      (1, if 1 < quarterIdx 4 then (0 : ℚ)
          else if 1 = quarterIdx 4 then
            min 0 (([-10, -10, -10, -10] : List ℚ).getD 1 0 -
              ((get_quarterly_sums none [⟨2025, 4, 15⟩] [-30] none [-10, -10, -10, -10] 4).1.getD 1 (0, 0)).2)
          else ([-10, -10, -10, -10] : List ℚ).getD 1 0) :=
  ⟨⟨by norm_num, by norm_num, by norm_num⟩,
    claim1_amended none [⟨2025, 4, 15⟩] [-30] none [-10, -10, -10, -10] 4
      (by norm_num) (by norm_num) 1 (by norm_num)⟩

/-- Claim C5 counterexample: the seed dated February 29, 2024 produces a
year-1 forecast dated February 28, 2025 — the month is preserved but the
day is not. -/
theorem claim5_counterexample :
    ((makeForecast "X" [(⟨2024, 2, 29⟩, 5)]).getD 0 []).map (fun e => e.date) = [⟨2025, 2, 28⟩] ∧
    (⟨2025, 2, 28⟩ : Date).day ≠ (⟨2024, 2, 29⟩ : Date).day := by
  have hd : daysInMonth 2025 2 = 28 := by decide
  constructor
  · simp only [makeForecast]
    rw [getD_map_range 5 0 _ _ (by norm_num)]
    rw [List.filter_cons]
    norm_num [addYears, hd]
  · decide

/-- Claim C5 (amended): for each year-offset `i+1` (`i < 5`), each non-zero
seed `(d, amt)` produces exactly one forecast event whose date keeps `d`'s
month and has `d`'s day clamped to the target month's length (so Feb 29
maps to Feb 28 in non-leap years), whose description is
`"Forecast: <category> for <Month> <Year+i+1>"`, whose amount is `amt` and
whose category is the category; zero-amount seeds produce none. -/
theorem claim5_amended (category : String) (seeds : List (Date × ℚ)) (i : Nat) (hi : i < 5) :
    (makeForecast category seeds).length = 5 ∧
    (makeForecast category seeds).getD i [] =
      (seeds.filter (fun x => x.2 ≠ 0)).map (fun x =>
        ProjEvent.mk
          ⟨x.1.year + ((i : Int) + 1), x.1.month,
            min x.1.day (daysInMonth (x.1.year + ((i : Int) + 1)) x.1.month)⟩
          ("Forecast: " ++ category ++ " for " ++ monthName x.1.month ++ " " ++
            toString (x.1.year + (i : Int) + 1))
          x.2 category 0 "") ∧
    ((makeForecast category seeds).getD i []).length =
      (seeds.filter (fun x => x.2 ≠ 0)).length := by
  have hfc : seeds.filter (fun x => decide (0 < |x.2|)) = seeds.filter (fun x => decide (x.2 ≠ 0)) := by
    apply List.filter_congr
    intro x _
    rw [decide_eq_decide]
    exact abs_pos
  have hmain : (makeForecast category seeds).getD i [] =
      (seeds.filter (fun x => x.2 ≠ 0)).map (fun x =>
        ProjEvent.mk
          ⟨x.1.year + ((i : Int) + 1), x.1.month,
            min x.1.day (daysInMonth (x.1.year + ((i : Int) + 1)) x.1.month)⟩
          ("Forecast: " ++ category ++ " for " ++ monthName x.1.month ++ " " ++
            toString (x.1.year + (i : Int) + 1))
          x.2 category 0 "") := by
    simp only [makeForecast]
    rw [getD_map_range 5 i _ _ hi, hfc]
    rfl
  refine ⟨by simp [makeForecast], hmain, ?_⟩
  rw [hmain, List.length_map]

/-- Concrete instance of claim C5 (amended) at year-offset 3. -/
theorem claim5_witness :
    ((2 : Nat) < 5) ∧
    ((makeForecast "Car" [(⟨2023, 5, 10⟩, 7), (⟨2023, 6, 30⟩, 0)]).getD 2 []).length =
      (([(⟨2023, 5, 10⟩, 7), (⟨2023, 6, 30⟩, 0)] : List (Date × ℚ)).filter
        (fun x => x.2 ≠ 0)).length :=
  ⟨by norm_num,
    (claim5_amended "Car" [(⟨2023, 5, 10⟩, 7), (⟨2023, 6, 30⟩, 0)] 2 (by norm_num)).2.2⟩

/-- Closed form of one month's value in the `parse_monthly_budget`
remaining loop. -/
def monthlyRemainingAt (planned : List ℚ) (actual_monthly_sums : List (Date × ℚ))
    (this_month : Nat) (i : Nat) : ℚ :=
  if i + 1 < this_month then 0
  else if i + 1 = this_month then
    (let w := if i < actual_monthly_sums.length then
        planned.getD i 0 - (actual_monthly_sums.getD i (⟨0, 1, 1⟩, 0)).2
      else planned.getD i 0
     if 0 < w then 0 else w)
  else planned.getD i 0

theorem monthly_loop_general (planned : List ℚ) (actual_monthly_sums : List (Date × ℚ))
    (this_month : Nat) (l : List Nat) : ∀ (c : ℚ) (acc : List ℚ),
    (l.foldl (fun st i =>
      let v1 := if i + 1 < this_month then (0 : ℚ) else st.1
      let v2 := if i + 1 = this_month then
          (let w := if i < actual_monthly_sums.length then
              planned.getD i 0 - (actual_monthly_sums.getD i (⟨0, 1, 1⟩, 0)).2
            else planned.getD i 0
           if 0 < w then 0 else w)
        else v1
      let v3 := if this_month < i + 1 then planned.getD i 0 else v2
      (v3, st.2 ++ [v3])) (c, acc)).2 =
      acc ++ l.map (monthlyRemainingAt planned actual_monthly_sums this_month) := by
  induction l with
  | nil => intro c acc; simp
  | cons i l ih =>
    intro c acc
    rw [List.foldl_cons, List.map_cons]
    have hstep : ∀ (st : ℚ × List ℚ),
        (let v1 := if i + 1 < this_month then (0 : ℚ) else st.1
         let v2 := if i + 1 = this_month then
             (let w := if i < actual_monthly_sums.length then
                 planned.getD i 0 - (actual_monthly_sums.getD i (⟨0, 1, 1⟩, 0)).2
               else planned.getD i 0
              if 0 < w then 0 else w)
           else v1
         let v3 := if this_month < i + 1 then planned.getD i 0 else v2
         ((v3, st.2 ++ [v3]) : ℚ × List ℚ)) =
          (monthlyRemainingAt planned actual_monthly_sums this_month i,
            st.2 ++ [monthlyRemainingAt planned actual_monthly_sums this_month i]) := by
      intro st
      rcases Nat.lt_trichotomy (i + 1) this_month with h | h | h
      · simp [monthlyRemainingAt, h, Nat.ne_of_lt h, Nat.lt_asymm h]
      · simp [monthlyRemainingAt, h, Nat.lt_irrefl]
      · have hne : ¬ (i + 1 < this_month) := Nat.lt_asymm h
        have hne2 : ¬ (i + 1 = this_month) := fun hc => absurd (hc ▸ h) (Nat.lt_irrefl _)
        simp [monthlyRemainingAt, h, hne, hne2]
    rw [hstep (c, acc), ih, List.append_cons, List.append_assoc]
    simp

theorem monthly_remaining_loop_eval (planned : List ℚ) (actual_monthly_sums : List (Date × ℚ))
    (this_month : Nat) :
    monthly_remaining_loop planned actual_monthly_sums this_month =
      (List.range 12).map (monthlyRemainingAt planned actual_monthly_sums this_month) := by
  unfold monthly_remaining_loop
  rw [monthly_loop_general]
  simp

theorem dictGet_parse_monthly_remaining (category : String) (cb : Dict)
    (actual : List (Date × ℚ)) (tm : Nat) (ty : Int) :
    dictGet (parse_monthly_budget category cb actual tm ty).1 "Remaining" =
      (monthly_remaining_loop ((dictGet cb "Planned").map asNum) actual tm).map Cell.num := by
  simp only [parse_monthly_budget]
  rw [dictGet_dictSet, dictGet_dictSet]
  simp

/-- Claim C2: for a Monthly-type ledger, the computed 12-month `Remaining`
column is `0` for months before the current one, `min(0, planned - actual)`
for the current month (clamped non-positive), and `planned` for later
months. -/
theorem claim2_monthly_remaining (category : String) (cb : Dict) (actual : List (Date × ℚ))
    (tm : Nat) (ty : Int) (h1 : 1 ≤ tm) (h2 : tm ≤ 12) (hA : tm - 1 < actual.length) :
    (dictGet (parse_monthly_budget category cb actual tm ty).1 "Remaining").length = 12 ∧
    ∀ m, 1 ≤ m → m ≤ 12 →
      (dictGet (parse_monthly_budget category cb actual tm ty).1 "Remaining").getD (m - 1)
          (Cell.str "") =
        Cell.num (if m < tm then 0
          else if m = tm then
            min 0 (((dictGet cb "Planned").map asNum).getD (m - 1) 0 -
              (actual.getD (tm - 1) (⟨0, 1, 1⟩, 0)).2)
          else ((dictGet cb "Planned").map asNum).getD (m - 1) 0) := by
  rw [dictGet_parse_monthly_remaining, monthly_remaining_loop_eval]
  constructor
  · simp
  · intro m hm1 hm2
    have hlt : m - 1 < 12 := by omega
    rw [getD_map_of_lt _ Cell.num (m - 1) (Cell.str "") 0
      (by simp; exact hlt)]
    rw [getD_map_range 12 (m - 1) _ _ hlt]
    congr 1
    unfold monthlyRemainingAt
    have hm : m - 1 + 1 = m := by omega
    rw [hm]
    rcases Nat.lt_trichotomy m tm with h | h | h
    · rw [if_pos h, if_pos h]
    · subst h
      rw [if_neg (Nat.lt_irrefl _), if_pos rfl, if_neg (Nat.lt_irrefl _), if_pos rfl,
        if_pos hA]
      rcases lt_trichotomy (0 : ℚ)
        (((dictGet cb "Planned").map asNum).getD (m - 1) 0 - (actual.getD (m - 1) (⟨0, 1, 1⟩, 0)).2)
        with hw | hw | hw
      · rw [if_pos hw, min_eq_left (by linarith)]
      · rw [← hw]; simp
      · rw [if_neg (by linarith), min_eq_right (by linarith)]
    · have hne : ¬ (m < tm) := Nat.lt_asymm h
      have hne2 : ¬ (m = tm) := fun hc => absurd (hc ▸ h) (Nat.lt_irrefl _)
      rw [if_neg hne, if_neg hne2, if_neg (by omega), if_neg hne2]

/-- Concrete instance of claim C2: today in March, three actual months. -/
theorem claim2_witness :
    ((1 : Nat) ≤ 3 ∧ (3 : Nat) ≤ 12 ∧
      3 - 1 < ([(⟨2025, 1, 31⟩, -2), (⟨2025, 2, 28⟩, -3), (⟨2025, 3, 31⟩, -4)] : List (Date × ℚ)).length) ∧
    (dictGet (parse_monthly_budget "G" [("Planned", List.replicate 12 (Cell.num 5))]
        [(⟨2025, 1, 31⟩, -2), (⟨2025, 2, 28⟩, -3), (⟨2025, 3, 31⟩, -4)] 3 2025).1 "Remaining").getD
        (2 - 1) (Cell.str "") =
      Cell.num (if 2 < 3 then 0
        else if 2 = 3 then
          min 0 (((dictGet [("Planned", List.replicate 12 (Cell.num 5))] "Planned").map asNum).getD
              (2 - 1) 0 -
            (([(⟨2025, 1, 31⟩, -2), (⟨2025, 2, 28⟩, -3), (⟨2025, 3, 31⟩, -4)] : List (Date × ℚ)).getD
              (3 - 1) (⟨0, 1, 1⟩, 0)).2)
        else ((dictGet [("Planned", List.replicate 12 (Cell.num 5))] "Planned").map asNum).getD
          (2 - 1) 0) :=
  ⟨⟨by norm_num, by norm_num, by norm_num⟩,
    (claim2_monthly_remaining "G" [("Planned", List.replicate 12 (Cell.num 5))]
      [(⟨2025, 1, 31⟩, -2), (⟨2025, 2, 28⟩, -3), (⟨2025, 3, 31⟩, -4)] 3 2025
      (by norm_num) (by norm_num) (by norm_num)).2 2 (by norm_num) (by norm_num)⟩

theorem allEq_through_two (d : Dict) (k k2 k3 : String) (v v2 v3 : List Cell)
    (h2 : k2 ≠ k) (h3 : k3 ≠ k) :
    allEq (dictSet (dictSet (dictSet d k v) k2 v2) k3 v3) k v :=
  allEq_dictSet_ne _ k k3 v v3 h3 (allEq_dictSet_ne _ k k2 v v2 h2 (allEq_dictSet_self d k v))

theorem dict_chain_idem (cb : Dict) (k1 k2 k3 : String) (v1 v1' v2 v3 : List Cell)
    (h12 : k1 ≠ k2) (h13 : k1 ≠ k3) (h23 : k2 ≠ k3) :
    dictSet (dictSet (dictSet (dictSet
      (dictSet (dictSet (dictSet (dictSet cb k1 v1) k1 v1') k2 v2) k3 v3) k1 v1) k1 v1') k2 v2) k3 v3 =
    dictSet (dictSet (dictSet (dictSet cb k1 v1) k1 v1') k2 v2) k3 v3 := by
  have hC1 : dictSet (dictSet cb k1 v1) k1 v1' = dictSet cb k1 v1' := dictSet_dictSet cb k1 v1 v1'
  rw [dictSet_dictSet]
  have hae1 : allEq (dictSet (dictSet (dictSet (dictSet cb k1 v1) k1 v1') k2 v2) k3 v3) k1 v1' := by
    rw [hC1]
    exact allEq_through_two cb k1 k2 k3 v1' v2 v3 (Ne.symm h12) (Ne.symm h13)
  have hk1 : hasKey (dictSet (dictSet (dictSet (dictSet cb k1 v1) k1 v1') k2 v2) k3 v3) k1 = true := by
    simp [hasKey_dictSet]
  rw [dictSet_eq_self _ k1 v1' hk1 hae1]
  have hae2 : allEq (dictSet (dictSet (dictSet (dictSet cb k1 v1) k1 v1') k2 v2) k3 v3) k2 v2 :=
    allEq_dictSet_ne _ k2 k3 v2 v3 (Ne.symm h23)
      (allEq_dictSet_self (dictSet (dictSet cb k1 v1) k1 v1') k2 v2)
  have hk2 : hasKey (dictSet (dictSet (dictSet (dictSet cb k1 v1) k1 v1') k2 v2) k3 v3) k2 = true := by
    simp [hasKey_dictSet]
  rw [dictSet_eq_self _ k2 v2 hk2 hae2]
  have hae3 : allEq (dictSet (dictSet (dictSet (dictSet cb k1 v1) k1 v1') k2 v2) k3 v3) k3 v3 :=
    allEq_dictSet_self _ k3 v3
  have hk3 : hasKey (dictSet (dictSet (dictSet (dictSet cb k1 v1) k1 v1') k2 v2) k3 v3) k3 = true := by
    simp [hasKey_dictSet]
  rw [dictSet_eq_self _ k3 v3 hk3 hae3]

theorem same_len_lengths (d : Dict) :
    ∀ kv1 ∈ make_dict_list_same_len d, ∀ kv2 ∈ make_dict_list_same_len d,
      kv1.2.length = kv2.2.length := by
  intro kv1 h1 kv2 h2
  simp only [make_dict_list_same_len] at h1 h2
  obtain ⟨a1, ha1, he1⟩ := List.mem_map.1 h1
  obtain ⟨a2, ha2, he2⟩ := List.mem_map.1 h2
  rw [← he1, ← he2]
  simp only [List.length_append, List.length_replicate]
  have l1 := col_len_le_dictMaxLen d a1 ha1
  have l2 := col_len_le_dictMaxLen d a2 ha2
  omega

theorem make_monthly_table_lengths (a p r : List (Date × ℚ)) (cb : Dict) (y : Int) :
    ∀ kv1 ∈ make_monthly_table a p r cb y, ∀ kv2 ∈ make_monthly_table a p r cb y,
      kv1.2.length = kv2.2.length := by
  intro kv1 h1 kv2 h2
  unfold make_monthly_table at h1 h2
  exact same_len_lengths _ kv1 h1 kv2 h2

/-- Claim C9: every ledger returned through `make_monthly_table` (hence every
Loan-type and Default-type parse result) has all column lists of equal length:
each column is the pre-padding column followed by empty-string padding up to
the longest column's length, with no truncation. -/
theorem claim9_equal_columns (a p r : List (Date × ℚ)) (cb : Dict) (y : Int)
    (category : String) (expenses : Dict) (ctypes : CategoryTypes) (ty2 : Int) :
    make_monthly_table a p r cb y =
      (make_monthly_table_core a p r cb y).map (fun kv => (kv.1,
        kv.2 ++ List.replicate (dictMaxLen (make_monthly_table_core a p r cb y) - kv.2.length)
          (Cell.str ""))) ∧
    (∀ kv1 ∈ make_monthly_table a p r cb y, ∀ kv2 ∈ make_monthly_table a p r cb y,
      kv1.2.length = kv2.2.length) ∧
    (hasKey cb "Payment" = true →
      ∀ kv1 ∈ okDict (parse_loan_budget category cb a y),
        ∀ kv2 ∈ okDict (parse_loan_budget category cb a y),
          kv1.2.length = kv2.2.length) ∧
    ((hasKey cb "Date" = true ∨ cb = []) →
      (ctypes.yearly.contains category = true →
        (pyFindIdx (dictGet expenses "Category") category).isSome = true) →
      ∀ kv1 ∈ okDict (parse_default_budget category cb a expenses ctypes y ty2),
        ∀ kv2 ∈ okDict (parse_default_budget category cb a expenses ctypes y ty2),
          kv1.2.length = kv2.2.length) := by
  refine ⟨rfl, make_monthly_table_lengths a p r cb y, ?_, ?_⟩
  · intro h kv1 h1 kv2 h2
    simp only [parse_loan_budget, h, not_true, if_false, okDict] at h1 h2
    exact make_monthly_table_lengths _ _ _ _ _ kv1 h1 kv2 h2
  · intro hd hy kv1 h1 kv2 h2
    rcases hd with hd | hd
    · by_cases hc : ctypes.yearly.contains category = true
      · obtain ⟨i, hi⟩ := Option.isSome_iff_exists.1 (hy hc)
        have hm : category ∈ ctypes.yearly := by
          simpa [List.contains_iff_exists_mem_beq] using hc
        simp [parse_default_budget, hd, hm, parse_yearly_expense, hi, okDict,
          Except.bind, bind, pure, Except.pure] at h1 h2
        exact make_monthly_table_lengths _ _ _ _ _ kv1 h1 kv2 h2
      · have hm : ¬ (category ∈ ctypes.yearly) := by
          intro hmem
          exact hc (List.contains_iff_exists_mem_beq.2 ⟨category, hmem, by simp⟩)
        simp [parse_default_budget, hd, hm, okDict,
          Except.bind, bind, pure, Except.pure] at h1 h2
        exact make_monthly_table_lengths _ _ _ _ _ kv1 h1 kv2 h2
    · subst hd
      by_cases hc : ctypes.yearly.contains category = true
      · obtain ⟨i, hi⟩ := Option.isSome_iff_exists.1 (hy hc)
        have hm : category ∈ ctypes.yearly := by
          simpa [List.contains_iff_exists_mem_beq] using hc
        simp [parse_default_budget, hasKey, hm, parse_yearly_expense, hi, okDict,
          Except.bind, bind, pure, Except.pure] at h1 h2
        exact make_monthly_table_lengths _ _ _ _ _ kv1 h1 kv2 h2
      · have hm : ¬ (category ∈ ctypes.yearly) := by
          intro hmem
          exact hc (List.contains_iff_exists_mem_beq.2 ⟨category, hmem, by simp⟩)
        simp [parse_default_budget, hasKey, hm, okDict,
          Except.bind, bind, pure, Except.pure] at h1 h2
        exact make_monthly_table_lengths _ _ _ _ _ kv1 h1 kv2 h2

/-- Concrete instance of claim C9 on a small Loan-type ledger. -/
theorem claim9_witness :
    (hasKey [("Payment", [Cell.num 1]), ("Date", []), ("R", [])] "Payment" = true) ∧
    (∀ kv1 ∈ okDict (parse_loan_budget "L" [("Payment", [Cell.num 1]), ("Date", []), ("R", [])] [] 2025),
      ∀ kv2 ∈ okDict (parse_loan_budget "L" [("Payment", [Cell.num 1]), ("Date", []), ("R", [])] [] 2025),
        kv1.2.length = kv2.2.length) :=
  ⟨by decide,
    (claim9_equal_columns [] [] [] [("Payment", [Cell.num 1]), ("Date", []), ("R", [])] 2025
      "L" [] (CategoryTypes.mk [] [] [] []) 2025).2.2.1 (by decide)⟩

theorem renamed_dictGet (cb : Dict) (category : String) (k : String) (hk : ¬ (k = "Desc.")) :
    dictGet (if hasKey cb "Desc." then dictSet cb "Desc." (renameDescs category (dictGet cb "Desc."))
      else cb) k = dictGet cb k := by
  by_cases h : hasKey cb "Desc."
  · simp [h, dictGet_dictSet, hk]
  · simp [h]

theorem clamp_eq_min (x : ℚ) : (if 0 < x then (0 : ℚ) else x) = min 0 x := by
  rcases lt_trichotomy 0 x with h | h | h
  · rw [if_pos h, min_eq_left h.le]
  · rw [← h]; simp
  · rw [if_neg (by linarith), min_eq_right h.le]

theorem enum_getD_self (l : List Cell) (q : Nat × Cell) (hq : q ∈ l.enum) :
    l.getD q.1 (Cell.str "") = q.2 := by
  obtain ⟨i, x⟩ := q
  obtain ⟨hi, hx⟩ := List.mem_enum hq
  rw [List.getD_eq_getElem?_getD, List.getElem?_eq_getElem hi]
  exact hx.symm

theorem enum_filter_getD_self (l : List Cell) (p : Cell → Bool) :
    ((l.enum.filter (fun q => p q.2)).map (fun q => l.getD q.1 (Cell.str ""))) = l.filter p := by
  have h1 : ((l.enum.filter (fun q => p q.2)).map (fun q => l.getD q.1 (Cell.str ""))) =
      (l.enum.filter (fun q => p q.2)).map Prod.snd := by
    apply List.map_congr_left
    intro q hq
    exact enum_getD_self l q (List.mem_of_mem_filter hq)
  rw [h1, show (fun q : Nat × Cell => p q.2) = (p ∘ Prod.snd) from rfl,
    ← List.filter_map Prod.snd l.enum, List.enum_map_snd]

theorem hasKey_map_keep (d : Dict) (keep : List (Nat × Cell)) (k : String) :
    hasKey (d.map (fun kv => (kv.1, keep.map (fun p => kv.2.getD p.1 (Cell.str ""))))) k =
      hasKey d k := by
  induction d with
  | nil => rfl
  | cons a d ih => rw [List.map_cons, hasKey_cons, hasKey_cons, ih]

theorem dictGet_map_keep (d : Dict) (keep : List (Nat × Cell)) (k : String)
    (hk : hasKey d k = true) :
    dictGet (d.map (fun kv => (kv.1, keep.map (fun p => kv.2.getD p.1 (Cell.str ""))))) k =
      keep.map (fun p => (dictGet d k).getD p.1 (Cell.str "")) := by
  induction d with
  | nil => simp [hasKey] at hk
  | cons a d ih =>
    rw [List.map_cons, dictGet_cons, dictGet_cons]
    by_cases h : a.1 = k
    · rw [if_pos h, if_pos h]
    · rw [if_neg h, if_neg h]
      apply ih
      rw [hasKey_cons] at hk
      simpa [h] using hk

theorem removeYearly_hasKey (cb : Dict) (k : String) :
    hasKey (removeYearlyRows cb) k = hasKey cb k := by
  unfold removeYearlyRows
  by_cases h : (dictGet cb "Desc.").any (fun x => x = Cell.str "Yearly")
  · rw [if_pos h, hasKey_map_keep]
  · rw [if_neg h]

theorem no_yearly_filter_self (desc : List Cell)
    (h : ¬ (desc.any (fun x => x = Cell.str "Yearly") = true)) :
    desc.filter (fun c => c ≠ Cell.str "Yearly") = desc := by
  apply List.filter_eq_self.2
  intro a ha
  by_cases hc : a = Cell.str "Yearly"
  · exact absurd (List.any_eq_true.2 ⟨a, ha, by simp [hc]⟩) h
  · simp [hc]

theorem removeYearly_desc (cb : Dict) (hk : hasKey cb "Desc." = true) :
    dictGet (removeYearlyRows cb) "Desc." =
      (dictGet cb "Desc.").filter (fun c => c ≠ Cell.str "Yearly") := by
  unfold removeYearlyRows
  by_cases h : (dictGet cb "Desc.").any (fun x => x = Cell.str "Yearly")
  · rw [if_pos h, dictGet_map_keep cb _ "Desc." hk]
    exact enum_filter_getD_self (dictGet cb "Desc.") (fun c => c ≠ Cell.str "Yearly")
  · rw [if_neg h, no_yearly_filter_self (dictGet cb "Desc.") h]

theorem removeYearly_col_len (cb : Dict) (k : String) (hk : hasKey cb k = true)
    (hlen : (dictGet cb k).length = (dictGet cb "Desc.").length) :
    (dictGet (removeYearlyRows cb) k).length =
      ((dictGet cb "Desc.").filter (fun c => c ≠ Cell.str "Yearly")).length := by
  unfold removeYearlyRows
  by_cases h : (dictGet cb "Desc.").any (fun x => x = Cell.str "Yearly")
  · rw [if_pos h, dictGet_map_keep cb _ k hk, List.length_map]
    have h2 := congrArg List.length
      (enum_filter_getD_self (dictGet cb "Desc.") (fun c => c ≠ Cell.str "Yearly"))
    rw [List.length_map] at h2
    exact h2
  · rw [if_neg h, no_yearly_filter_self (dictGet cb "Desc.") h]
    exact hlen

theorem dictGet_mem_of_hasKey (d : Dict) (k : String) (hk : hasKey d k = true) :
    (k, dictGet d k) ∈ d := by
  induction d with
  | nil => simp [hasKey] at hk
  | cons a d ih =>
    rw [hasKey_cons] at hk
    rw [dictGet_cons]
    by_cases h : a.1 = k
    · rw [if_pos h, ← h]
      exact List.mem_cons_self _ _
    · rw [if_neg h]
      apply List.mem_cons_of_mem
      apply ih
      simpa [h] using hk

theorem hasKey_map_pad (d : Dict) (M : Nat) (k : String) :
    hasKey (d.map (fun kv => (kv.1, kv.2 ++ List.replicate (M - kv.2.length) (Cell.str "")))) k =
      hasKey d k := by
  induction d with
  | nil => rfl
  | cons a d ih => rw [List.map_cons, hasKey_cons, hasKey_cons, ih]

theorem dictGet_map_pad (d : Dict) (M : Nat) (k : String) (hk : hasKey d k = true) :
    dictGet (d.map (fun kv => (kv.1, kv.2 ++ List.replicate (M - kv.2.length) (Cell.str "")))) k =
      dictGet d k ++ List.replicate (M - (dictGet d k).length) (Cell.str "") := by
  induction d with
  | nil => simp [hasKey] at hk
  | cons a d ih =>
    rw [List.map_cons, dictGet_cons, dictGet_cons]
    by_cases h : a.1 = k
    · rw [if_pos h, if_pos h]
    · rw [if_neg h, if_neg h]
      apply ih
      rw [hasKey_cons] at hk
      simpa [h] using hk

theorem hasKey_same_len (d : Dict) (k : String) :
    hasKey (make_dict_list_same_len d) k = hasKey d k := by
  simp only [make_dict_list_same_len]
  exact hasKey_map_pad d (dictMaxLen d) k

theorem dictGet_same_len (d : Dict) (k : String) (hk : hasKey d k = true) :
    dictGet (make_dict_list_same_len d) k =
      dictGet d k ++ List.replicate (dictMaxLen d - (dictGet d k).length) (Cell.str "") := by
  simp only [make_dict_list_same_len]
  exact dictGet_map_pad d (dictMaxLen d) k hk

theorem countP_yearly_filter (desc : List Cell) :
    (desc.filter (fun c => c ≠ Cell.str "Yearly")).countP (fun c => c = Cell.str "Yearly") = 0 := by
  rw [List.countP_eq_zero]
  intro a ha
  have h2 := List.of_mem_filter ha
  simp only [ne_eq, decide_not] at h2
  simp only [decide_eq_true_eq]
  intro hc
  rw [hc] at h2
  simp at h2

theorem countP_pad_yearly (m : Nat) :
    (List.replicate m (Cell.str "")).countP (fun c => c = Cell.str "Yearly") = 0 := by
  rw [List.countP_eq_zero]
  intro a ha
  rw [List.mem_replicate] at ha
  rw [ha.2]
  simp

/-- Claim C3: for a Yearly-classified category found in the expense plan,
`parse_yearly_expense` succeeds and appends exactly one synthetic `Yearly`
row, dated December 31 of the current year, whose This Year cell is
`min(0, plan_this_year - (actual_sum + forward_this_year_sum))` and whose
Next Year cell is `min(0, plan_next_year - sum(next_year_column))`;
separately `parse_default_budget` stores the unclamped single value
`Remaining = plan_this_year - actual_sum` (followed only by padding cells). -/
theorem claim3_yearly_row (category : String) (cb : Dict) (actual : List (Date × ℚ))
    (expenses : Dict) (ctypes : CategoryTypes) (this_year todayYear : Int) (i : Nat)
    (hi : pyFindIdx (dictGet expenses "Category") category = some i)
    (hkDesc : hasKey cb "Desc." = true) (hkDate : hasKey cb "Date" = true)
    (hkTY : hasKey cb "This Year" = true) (hkNY : hasKey cb "Next Year" = true)
    (hlen : ∀ kv ∈ cb, kv.2.length = (dictGet cb "Desc.").length)
    (hYc : category ∈ ctypes.yearly) :
    (parse_yearly_expense category cb actual expenses todayYear).isOk = true ∧
    (dictGet (okYearly (parse_yearly_expense category cb actual expenses todayYear))
        "Desc.").countP (fun c => c = Cell.str "Yearly") = 1 ∧
    (dictGet (okYearly (parse_yearly_expense category cb actual expenses todayYear))
        "Desc.").getD ((dictGet cb "Desc.").filter (fun c => c ≠ Cell.str "Yearly")).length
        (Cell.str "") = Cell.str "Yearly" ∧
    (dictGet (okYearly (parse_yearly_expense category cb actual expenses todayYear))
        "Date").getD ((dictGet cb "Desc.").filter (fun c => c ≠ Cell.str "Yearly")).length
        (Cell.str "") = Cell.date ⟨todayYear, 12, 31⟩ ∧
    (dictGet (okYearly (parse_yearly_expense category cb actual expenses todayYear))
        "This Year").getD ((dictGet cb "Desc.").filter (fun c => c ≠ Cell.str "Yearly")).length
        (Cell.str "") =
      Cell.num (min 0 (asNum ((dictGet expenses "This Year").getD i (Cell.str "")) -
        ((actual.map (fun x => x.2)).sum +
          ((dictGet (get_forward_budget (removeYearlyRows cb)) "This Year").map asNum).sum))) ∧
    (dictGet (okYearly (parse_yearly_expense category cb actual expenses todayYear))
        "Next Year").getD ((dictGet cb "Desc.").filter (fun c => c ≠ Cell.str "Yearly")).length
        (Cell.str "") =
      Cell.num (min 0 (asNum ((dictGet expenses "Next Year").getD i (Cell.str "")) -
        (remove_list_blanks (dictGet (removeYearlyRows cb) "Next Year")).sum)) ∧
    (dictGet (okDict (parse_default_budget category cb actual expenses ctypes this_year todayYear))
        "Remaining").head? =
      some (Cell.num (asNum ((dictGet expenses "This Year").getD i (Cell.str "")) -
        (actual.map (fun x => x.2)).sum)) ∧
    (∀ c ∈ (dictGet (okDict (parse_default_budget category cb actual expenses ctypes this_year
        todayYear)) "Remaining").drop 1, c = Cell.str "") := by
  have hkD' : hasKey (removeYearlyRows cb) "Desc." = true := by
    rw [removeYearly_hasKey]; exact hkDesc
  have hkDate' : hasKey (removeYearlyRows cb) "Date" = true := by
    rw [removeYearly_hasKey]; exact hkDate
  have hkTY' : hasKey (removeYearlyRows cb) "This Year" = true := by
    rw [removeYearly_hasKey]; exact hkTY
  have hkNY' : hasKey (removeYearlyRows cb) "Next Year" = true := by
    rw [removeYearly_hasKey]; exact hkNY
  have hdesc' := removeYearly_desc cb hkDesc
  have hlenDate : (dictGet (removeYearlyRows cb) "Date").length =
      ((dictGet cb "Desc.").filter (fun c => c ≠ Cell.str "Yearly")).length :=
    removeYearly_col_len cb "Date" hkDate (hlen _ (dictGet_mem_of_hasKey cb "Date" hkDate))
  have hlenTY : (dictGet (removeYearlyRows cb) "This Year").length =
      ((dictGet cb "Desc.").filter (fun c => c ≠ Cell.str "Yearly")).length :=
    removeYearly_col_len cb "This Year" hkTY (hlen _ (dictGet_mem_of_hasKey cb "This Year" hkTY))
  have hlenNY : (dictGet (removeYearlyRows cb) "Next Year").length =
      ((dictGet cb "Desc.").filter (fun c => c ≠ Cell.str "Yearly")).length :=
    removeYearly_col_len cb "Next Year" hkNY (hlen _ (dictGet_mem_of_hasKey cb "Next Year" hkNY))
  have hlenD : (dictGet (removeYearlyRows cb) "Desc.").length =
      ((dictGet cb "Desc.").filter (fun c => c ≠ Cell.str "Yearly")).length := by
    rw [hdesc']
  refine ⟨?_, ?_, ?_, ?_, ?_, ?_, ?_, ?_⟩
  · simp [parse_yearly_expense, hi, Except.isOk, Except.toBool]
  · simp only [parse_yearly_expense, hi, okYearly, dictGet_dictSet, String.reduceEq,
      if_false, if_true]
    rw [dictGet_same_len _ _ (by simp [hasKey_dictSet, hkD'])]
    rw [dictGet_dictSet]
    rw [if_pos rfl]
    rw [List.countP_append, List.countP_append, hdesc', countP_yearly_filter,
      countP_pad_yearly]
    decide
  · simp only [parse_yearly_expense, hi, okYearly, dictGet_dictSet, String.reduceEq,
      if_false, if_true]
    rw [dictGet_same_len _ _ (by simp [hasKey_dictSet, hkD'])]
    rw [dictGet_dictSet, if_pos rfl]
    rw [List.getD_append _ _ _ _ (by rw [List.length_append, hlenD]; simp)]
    rw [List.getD_append_right _ _ _ _ (le_of_eq hlenD), hlenD]
    simp only [Nat.sub_self, List.getD_cons_zero]
  · simp only [parse_yearly_expense, hi, okYearly, dictGet_dictSet, String.reduceEq,
      if_false, if_true]
    rw [dictGet_same_len _ _ (by simp [hasKey_dictSet, hkDate'])]
    simp only [dictGet_dictSet, String.reduceEq, if_false, if_true]
    rw [List.getD_append _ _ _ _ (by rw [List.length_append, hlenDate]; simp)]
    rw [List.getD_append_right _ _ _ _ (le_of_eq hlenDate), hlenDate]
    simp only [Nat.sub_self, List.getD_cons_zero]
  · simp only [parse_yearly_expense, hi, okYearly, dictGet_dictSet, String.reduceEq,
      if_false, if_true]
    rw [dictGet_same_len _ _ (by simp [hasKey_dictSet, hkTY'])]
    simp only [dictGet_dictSet, String.reduceEq, if_false, if_true]
    rw [List.getD_append _ _ _ _ (by rw [List.length_append, hlenTY]; simp)]
    rw [List.getD_append_right _ _ _ _ (le_of_eq hlenTY), hlenTY]
    simp only [Nat.sub_self, List.getD_cons_zero]
    rw [clamp_eq_min]
  · simp only [parse_yearly_expense, hi, okYearly, dictGet_dictSet, String.reduceEq,
      if_false, if_true]
    rw [dictGet_same_len _ _ (by simp [hasKey_dictSet, hkNY'])]
    simp only [dictGet_dictSet, String.reduceEq, if_false, if_true]
    rw [List.getD_append _ _ _ _ (by rw [List.length_append, hlenNY]; simp)]
    rw [List.getD_append_right _ _ _ _ (le_of_eq hlenNY), hlenNY]
    simp only [Nat.sub_self, List.getD_cons_zero]
    rw [clamp_eq_min]
  · have hYcB : ctypes.yearly.contains category = true := List.elem_eq_true_of_mem hYc
    simp only [parse_default_budget, hkDate, eq_self_iff_true, not_true, if_false, if_true,
      hYcB, parse_yearly_expense, hi, bind, Except.bind, pure, Except.pure, okDict,
      make_monthly_table]
    rw [dictGet_same_len _ _ (by
      simp [make_monthly_table_core, hasKey_dictSet, hasKey_same_len])]
    simp only [make_monthly_table_core, dictGet_dictSet, String.reduceEq, if_false, if_true]
    rw [dictGet_same_len _ _ (by simp [hasKey_dictSet])]
    rw [dictGet_dictSet, if_pos rfl]
    rw [List.singleton_append, List.cons_append, List.head?_cons]
  · have hYcB : ctypes.yearly.contains category = true := List.elem_eq_true_of_mem hYc
    simp only [parse_default_budget, hkDate, eq_self_iff_true, not_true, if_false, if_true,
      hYcB, parse_yearly_expense, hi, bind, Except.bind, pure, Except.pure, okDict,
      make_monthly_table]
    rw [dictGet_same_len _ _ (by
      simp [make_monthly_table_core, hasKey_dictSet, hasKey_same_len])]
    simp only [make_monthly_table_core, dictGet_dictSet, String.reduceEq, if_false, if_true]
    rw [dictGet_same_len _ _ (by simp [hasKey_dictSet])]
    rw [dictGet_dictSet, if_pos rfl]
    rw [List.singleton_append, List.cons_append]
    simp only [List.drop_succ_cons, List.drop_zero]
    intro c hc
    rcases List.mem_append.1 hc with h2 | h2
    · exact List.eq_of_mem_replicate h2
    · exact List.eq_of_mem_replicate h2

/-- Concrete instance of claim C3: category `Ins` planned at -1200 with one
-300 actual month and one -100 forward row. -/
theorem claim3_witness :
    (pyFindIdx (dictGet [("Category", [Cell.str "Ins"]), ("This Year", [Cell.num (-1200)]),
        ("Next Year", [Cell.num (-1200)])] "Category") "Ins" = some 0 ∧
      hasKey [("Date", [Cell.date ⟨2025, 1, 5⟩]), ("Desc.", [Cell.str "Ins"]),
        ("This Year", [Cell.num (-100)]), ("R", [Cell.str ""]), ("Next Year", [Cell.num (-100)]),
        ("Note", [Cell.str ""])] "Desc." = true ∧
      "Ins" ∈ (CategoryTypes.mk [] ["Ins"] [] []).yearly) ∧
    (dictGet (okYearly (parse_yearly_expense "Ins" [("Date", [Cell.date ⟨2025, 1, 5⟩]),
        ("Desc.", [Cell.str "Ins"]), ("This Year", [Cell.num (-100)]), ("R", [Cell.str ""]),
        ("Next Year", [Cell.num (-100)]), ("Note", [Cell.str ""])]
        [(⟨2025, 1, 31⟩, -300)] [("Category", [Cell.str "Ins"]), ("This Year", [Cell.num (-1200)]),
        ("Next Year", [Cell.num (-1200)])] 2025))
        "This Year").getD ((dictGet [("Date", [Cell.date ⟨2025, 1, 5⟩]),
        ("Desc.", [Cell.str "Ins"]), ("This Year", [Cell.num (-100)]), ("R", [Cell.str ""]),
        ("Next Year", [Cell.num (-100)]), ("Note", [Cell.str ""])] "Desc.").filter
          (fun c => c ≠ Cell.str "Yearly")).length (Cell.str "") =
      Cell.num (min 0 (asNum ((dictGet [("Category", [Cell.str "Ins"]),
        ("This Year", [Cell.num (-1200)]), ("Next Year", [Cell.num (-1200)])]
        "This Year").getD 0 (Cell.str "")) -
        ((([(⟨2025, 1, 31⟩, -300)] : List (Date × ℚ)).map (fun x => x.2)).sum +
          ((dictGet (get_forward_budget (removeYearlyRows [("Date", [Cell.date ⟨2025, 1, 5⟩]),
            ("Desc.", [Cell.str "Ins"]), ("This Year", [Cell.num (-100)]), ("R", [Cell.str ""]),
            ("Next Year", [Cell.num (-100)]), ("Note", [Cell.str ""])])) "This Year").map
            asNum).sum))) :=
  ⟨⟨by decide, by decide, by decide⟩,
    (claim3_yearly_row "Ins" [("Date", [Cell.date ⟨2025, 1, 5⟩]), ("Desc.", [Cell.str "Ins"]),
      ("This Year", [Cell.num (-100)]), ("R", [Cell.str ""]), ("Next Year", [Cell.num (-100)]),
      ("Note", [Cell.str ""])] [(⟨2025, 1, 31⟩, -300)]
      [("Category", [Cell.str "Ins"]), ("This Year", [Cell.num (-1200)]),
      ("Next Year", [Cell.num (-1200)])] (CategoryTypes.mk [] ["Ins"] [] []) 2025 2025 0
      (by decide) (by decide) (by decide) (by decide) (by decide) (by decide)
      (by decide)).2.2.2.2.1⟩

theorem dateLEb_iff (a b : Date) : dateLEb a b = true ↔
    (a.year < b.year ∨ (a.year = b.year ∧ (a.month < b.month ∨
      (a.month = b.month ∧ a.day ≤ b.day)))) := by
  unfold dateLEb
  by_cases h1 : a.year = b.year
  · by_cases h2 : a.month = b.month
    · simp [h1, h2]
    · simp [h1, h2]
  · simp [h1]

theorem dateLEb_trans (a b c : Date) (h1 : dateLEb a b = true) (h2 : dateLEb b c = true) :
    dateLEb a c = true := by
  rw [dateLEb_iff] at h1 h2 ⊢
  omega

theorem dateLEb_total (a b : Date) : (dateLEb a b || dateLEb b a) = true := by
  rw [Bool.or_eq_true, dateLEb_iff, dateLEb_iff]
  omega

theorem dateLEb_antisymm (a b : Date) (h1 : dateLEb a b = true) (h2 : dateLEb b a = true) :
    a = b := by
  obtain ⟨y1, m1, d1⟩ := a
  obtain ⟨y2, m2, d2⟩ := b
  rw [dateLEb_iff] at h1 h2
  simp only at h1 h2
  simp only [Date.mk.injEq]
  omega

theorem monthIdx_le_of_dateLEb (a b : Date) (hma : a.month ≤ 12) (hmb : 1 ≤ b.month)
    (h : dateLEb a b = true) : monthIdx a ≤ monthIdx b := by
  rw [dateLEb_iff] at h
  unfold monthIdx
  omega

theorem getLast?_sorted_max (s : List Date) (hs : s ≠ [])
    (hsorted : s.Pairwise (fun a b => dateLEb a b = true)) :
    ∃ z, s.getLast? = some z ∧ z ∈ s ∧ ∀ x ∈ s, dateLEb x z = true := by
  induction s with
  | nil => exact absurd rfl hs
  | cons a t ih =>
    cases t with
    | nil =>
      refine ⟨a, rfl, List.mem_singleton_self a, ?_⟩
      intro x hx
      rw [List.mem_singleton] at hx
      subst hx
      rw [dateLEb_iff]
      omega
    | cons b t2 =>
      obtain ⟨hhead, htail⟩ := List.pairwise_cons.1 hsorted
      obtain ⟨z, hz1, hz2, hz3⟩ := ih (by simp) htail
      refine ⟨z, ?_, List.mem_cons_of_mem a hz2, ?_⟩
      · rw [List.getLast?_cons_cons]
        exact hz1
      · intro x hx
        rcases List.mem_cons.1 hx with he | ht
        · subst he
          exact hhead z hz2
        · exact hz3 x ht

theorem sorted_head_min (l : List Date) (dmin : Date) (hne : l ≠ [])
    (hmem : dmin ∈ l) (hlb : ∀ d ∈ l, dateLEb dmin d = true) :
    (l.mergeSort dateLEb).headD ⟨0, 1, 1⟩ = dmin := by
  have hperm : (l.mergeSort dateLEb).Perm l := List.mergeSort_perm l dateLEb
  have hsorted : (l.mergeSort dateLEb).Pairwise (fun a b => dateLEb a b = true) :=
    List.sorted_mergeSort dateLEb_trans dateLEb_total l
  have hsne : l.mergeSort dateLEb ≠ [] := by
    intro hc
    rw [hc] at hperm
    exact hne (List.perm_nil.1 hperm.symm)
  obtain ⟨h, t, hs⟩ := List.exists_cons_of_ne_nil hsne
  rw [hs, List.headD_cons]
  have hmem_s : dmin ∈ l.mergeSort dateLEb := (hperm.mem_iff).2 hmem
  have hh_l : h ∈ l := (hperm.mem_iff).1 (hs ▸ List.mem_cons_self h t)
  rw [hs] at hmem_s hsorted
  rcases List.mem_cons.1 hmem_s with he | ht
  · exact he.symm
  · exact dateLEb_antisymm h dmin ((List.pairwise_cons.1 hsorted).1 dmin ht) (hlb h hh_l)

theorem sorted_last_max (l : List Date) (dmax : Date) (hne : l ≠ [])
    (hmem : dmax ∈ l) (hub : ∀ d ∈ l, dateLEb d dmax = true) :
    (l.mergeSort dateLEb).getLastD ⟨0, 1, 1⟩ = dmax := by
  have hperm : (l.mergeSort dateLEb).Perm l := List.mergeSort_perm l dateLEb
  have hsorted : (l.mergeSort dateLEb).Pairwise (fun a b => dateLEb a b = true) :=
    List.sorted_mergeSort dateLEb_trans dateLEb_total l
  have hsne : l.mergeSort dateLEb ≠ [] := by
    intro hc
    rw [hc] at hperm
    exact hne (List.perm_nil.1 hperm.symm)
  obtain ⟨z, hz1, hz2, hz3⟩ := getLast?_sorted_max _ hsne hsorted
  have hze : z = dmax := dateLEb_antisymm z dmax (hub z ((hperm.mem_iff).1 hz2))
    (hz3 dmax ((hperm.mem_iff).2 hmem))
  rw [List.getLastD_eq_getLast?, hz1, hze]
  rfl

theorem range_eom_dates_eq (a b : Date) (ha1 : 1 ≤ a.month) (ha2 : a.month ≤ 12) :
    range_eom_dates a b = (intRange (monthIdx a) (monthIdx b + 1)).map monthEndOfIdx := by
  unfold range_eom_dates intRange monthIdx
  rw [List.map_map, List.map_map]
  rw [show ((12 * b.year + (b.month : Int) - 1 + 1) - (12 * a.year + (a.month : Int) - 1)).toNat =
      (((b.year - a.year) * 12 + (b.month : Int) + 1) - (a.month : Int)).toNat from by omega]
  apply List.map_congr_left
  intro j hj
  simp only [Function.comp]
  have hM1 : 1 ≤ ((((a.month : Int) + (j : Int)) - 1) % 12).toNat + 1 := by omega
  have hM2 : ((((a.month : Int) + (j : Int)) - 1) % 12).toNat + 1 ≤ 12 := by omega
  rw [end_of_month_eq _ _ _ hM1 hM2]
  unfold monthEndOfIdx
  have e1 : ((a.month : Int) + (j : Int) - 1) / 12 + a.year =
      (12 * a.year + (a.month : Int) - 1 + (j : Int)) / 12 := by omega
  have e2 : ((((a.month : Int) + (j : Int) - 1) % 12)).toNat + 1 =
      (((12 * a.year + (a.month : Int) - 1 + (j : Int)) % 12)).toNat + 1 := by omega
  rw [e1, e2]

theorem intRange_getD (a b : Int) (j : Nat) (hj : j < (b - a).toNat) :
    (intRange a b).getD j 0 = a + (j : Int) := by
  unfold intRange
  rw [List.getD_eq_getElem?_getD, List.getElem?_map, List.getElem?_range hj]
  rfl

theorem in_this_month_monthEnd (x : Date) (k : Int) (hm1 : 1 ≤ x.month) (hm2 : x.month ≤ 12)
    (hk : monthIdx x = k) : in_this_month x (monthEndOfIdx k) = true := by
  unfold in_this_month monthEndOfIdx monthIdx at *
  simp only [Bool.and_eq_true, beq_iff_eq]
  refine ⟨?_, ?_⟩ <;> omega

theorem sum_set_getD_add (l : List ℚ) : ∀ (i : Nat) (q : ℚ), i < l.length →
    (l.set i (l.getD i 0 + q)).sum = l.sum + q := by
  induction l with
  | nil => intro i q h; simp at h
  | cons a t ih =>
    intro i q h
    cases i with
    | zero => simp [List.set_cons_zero]; ring
    | succ i =>
      rw [List.getD_cons_succ, List.set_cons_succ, List.sum_cons, List.sum_cons,
        ih i q (by simpa using h)]
      ring

theorem range_map_getD (l : List ℚ) : (List.range l.length).map (fun i => l.getD i 0) = l := by
  induction l with
  | nil => rfl
  | cons a t ih =>
    rw [List.length_cons, List.range_succ_eq_map, List.map_cons, List.getD_cons_zero,
      List.map_map]
    have he : ((fun i => (a :: t).getD i 0) ∘ Nat.succ) = (fun i => t.getD i 0) := by
      funext i
      simp [Function.comp, List.getD_cons_succ]
    rw [he, ih]

theorem bucket_foldl (category : Option String) (tcats : Option (List String))
    (dates MD : List Date) (amounts_in : List ℚ) :
    ∀ (l : List Nat) (sums : List ℚ), sums.length = MD.length →
    (∀ d ∈ l, ((List.range MD.length).filter (fun i =>
        in_this_month (dates.getD d ⟨0, 1, 1⟩) (MD.getD i ⟨0, 1, 1⟩))) ≠ []) →
    (l.foldl (fun sums d =>
      if rowCounted category tcats d then
        match (List.range MD.length).filter (fun i =>
            in_this_month (dates.getD d ⟨0, 1, 1⟩) (MD.getD i ⟨0, 1, 1⟩)) with
        | [] => sums
        | i :: _ => sums.set i (sums.getD i 0 + amounts_in.getD d 0)
      else sums) sums).sum =
      sums.sum + (l.map (fun d =>
        if rowCounted category tcats d then amounts_in.getD d 0 else 0)).sum := by
  intro l
  induction l with
  | nil => intro sums _ _; simp
  | cons d l ih =>
    intro sums hsum hl
    rw [List.foldl_cons, List.map_cons, List.sum_cons]
    by_cases hr : rowCounted category tcats d
    · rw [if_pos hr, if_pos hr]
      cases hfd : (List.range MD.length).filter (fun i =>
          in_this_month (dates.getD d ⟨0, 1, 1⟩) (MD.getD i ⟨0, 1, 1⟩)) with
      | nil => exact absurd hfd (hl d (List.mem_cons_self d l))
      | cons i rest =>
        have hi : i < sums.length := by
          rw [hsum]
          exact List.mem_range.1 (List.mem_of_mem_filter
            (hfd ▸ List.mem_cons_self i rest))
        rw [ih (sums.set i (sums.getD i 0 + amounts_in.getD d 0))
          (by rw [List.length_set]; exact hsum)
          (fun d2 h2 => hl d2 (List.mem_cons_of_mem d h2))]
        rw [sum_set_getD_add sums i (amounts_in.getD d 0) hi]
        ring
    · rw [if_neg hr, if_neg hr]
      rw [ih sums hsum (fun d2 h2 => hl d2 (List.mem_cons_of_mem d h2))]
      ring

/-- Claim C6: for a non-empty dates list with parallel amounts,
`get_monthly_sums` returns the gap-free ascending month-end sequence from
the month of the minimum date through the month of the maximum date, and the
bucket sums add up to the blank-coerced amounts of the rows passing the
category filter (all rows when no filter applies). -/
theorem claim6_monthly_sums (category : Option String) (dates : List Date)
    (amounts : List Cell) (tcats : Option (List String)) (dmin dmax : Date)
    (hne : dates ≠ [])
    (hval : ∀ d ∈ dates, 1 ≤ d.month ∧ d.month ≤ 12)
    (hminMem : dmin ∈ dates) (hmaxMem : dmax ∈ dates)
    (hmin : ∀ d ∈ dates, dateLEb dmin d = true) (hmax : ∀ d ∈ dates, dateLEb d dmax = true)
    (hlenA : amounts.length = dates.length) :
    ((get_monthly_sums category dates amounts tcats).map (fun p => p.1) =
      (intRange (monthIdx dmin) (monthIdx dmax + 1)).map monthEndOfIdx) ∧
    (((get_monthly_sums category dates amounts tcats).map (fun p => p.2)).sum =
      (if truthyStr category && truthyList tcats then
        ((List.range dates.length).map (fun d =>
          if (tcats.getD []).getD d "" = category.getD "" then
            (remove_list_blanks amounts).getD d 0 else 0)).sum
      else (remove_list_blanks amounts).sum)) := by
  have hv_min := hval dmin hminMem
  have hv_max := hval dmax hmaxMem
  have hMDlen : ((intRange (monthIdx dmin) (monthIdx dmax + 1)).map monthEndOfIdx).length =
      ((monthIdx dmax + 1) - monthIdx dmin).toNat := by
    rw [List.length_map]
    unfold intRange
    rw [List.length_map, List.length_range]
  have hbuckets : ∀ d ∈ List.range dates.length,
      ((List.range ((intRange (monthIdx dmin) (monthIdx dmax + 1)).map monthEndOfIdx).length).filter
        (fun i => in_this_month (dates.getD d ⟨0, 1, 1⟩)
          (((intRange (monthIdx dmin) (monthIdx dmax + 1)).map monthEndOfIdx).getD i
            ⟨0, 1, 1⟩))) ≠ [] := by
    intro d hd
    rw [List.mem_range] at hd
    have hx : dates.getD d ⟨0, 1, 1⟩ ∈ dates := by
      rw [List.getD_eq_getElem?_getD, List.getElem?_eq_getElem hd]
      exact List.getElem_mem hd
    have hvx := hval _ hx
    have h1 : monthIdx dmin ≤ monthIdx (dates.getD d ⟨0, 1, 1⟩) :=
      monthIdx_le_of_dateLEb dmin _ hv_min.2 hvx.1 (hmin _ hx)
    have h2 : monthIdx (dates.getD d ⟨0, 1, 1⟩) ≤ monthIdx dmax :=
      monthIdx_le_of_dateLEb _ dmax hvx.2 hv_max.1 (hmax _ hx)
    apply List.ne_nil_of_mem
      (a := (monthIdx (dates.getD d ⟨0, 1, 1⟩) - monthIdx dmin).toNat)
    rw [List.mem_filter]
    constructor
    · rw [List.mem_range, hMDlen]
      omega
    · rw [getD_map_of_lt (intRange (monthIdx dmin) (monthIdx dmax + 1)) monthEndOfIdx
        _ ⟨0, 1, 1⟩ (0 : Int) (by unfold intRange; rw [List.length_map, List.length_range]; omega)]
      rw [intRange_getD _ _ _ (by omega)]
      exact in_this_month_monthEnd _ _ hvx.1 hvx.2 (by omega)
  simp only [get_monthly_sums, if_neg hne]
  rw [sorted_head_min dates dmin hne hminMem hmin,
    sorted_last_max dates dmax hne hmaxMem hmax,
    range_eom_dates_eq dmin dmax hv_min.1 hv_min.2]
  constructor
  · rw [List.map_fst_zip]
    rw [foldl_length_inv]
    · rw [List.length_replicate]
    · intro acc b
      by_cases h : rowCounted category tcats b
      · simp only [if_pos h]
        split
        · rfl
        · rw [List.length_set]
      · simp only [if_neg h]
  · rw [List.map_snd_zip]
    swap
    · rw [foldl_length_inv]
      · rw [List.length_replicate]
      · intro acc b
        by_cases h : rowCounted category tcats b
        · simp only [if_pos h]
          split
          · rfl
          · rw [List.length_set]
        · simp only [if_neg h]
    rw [bucket_foldl category tcats dates _ _ (List.range dates.length)
      (List.replicate ((intRange (monthIdx dmin) (monthIdx dmax + 1)).map monthEndOfIdx).length 0)
      (by rw [List.length_replicate]) hbuckets]
    rw [List.sum_replicate]
    simp only [smul_zero, zero_add]
    by_cases hf : (truthyStr category && truthyList tcats) = true
    · rw [if_pos hf]
      apply congrArg List.sum
      apply List.map_congr_left
      intro d _
      simp [rowCounted, hf]
    · rw [if_neg hf]
      have hc : ∀ d ∈ List.range dates.length,
          (if rowCounted category tcats d then (remove_list_blanks amounts).getD d 0 else 0) =
            (fun d => (remove_list_blanks amounts).getD d 0) d := by
        intro d _
        simp [rowCounted, hf]
      rw [List.map_congr_left hc]
      have hlenAI : (remove_list_blanks amounts).length = dates.length := by
        unfold remove_list_blanks
        rw [List.length_map]
        exact hlenA
      rw [← hlenAI, range_map_getD]

/-- Concrete instance of claim C6: two rows dated January and February 2024
with no category filter; the month axis spans January and February and the
sums add up to the total of the amounts. -/
theorem claim6_witness :
    (([⟨2024, 1, 10⟩, ⟨2024, 2, 5⟩] : List Date) ≠ []) ∧
    (((get_monthly_sums none [⟨2024, 1, 10⟩, ⟨2024, 2, 5⟩] [Cell.num 3, Cell.num 7] none).map
        (fun p => p.1) =
      (intRange (monthIdx ⟨2024, 1, 10⟩) (monthIdx ⟨2024, 2, 5⟩ + 1)).map monthEndOfIdx) ∧
    (((get_monthly_sums none [⟨2024, 1, 10⟩, ⟨2024, 2, 5⟩] [Cell.num 3, Cell.num 7] none).map
        (fun p => p.2)).sum =
      (if truthyStr (none : Option String) && truthyList (none : Option (List String)) then
        ((List.range ([⟨2024, 1, 10⟩, ⟨2024, 2, 5⟩] : List Date).length).map (fun d =>
          if ((none : Option (List String)).getD []).getD d "" =
              (none : Option String).getD "" then
            (remove_list_blanks [Cell.num 3, Cell.num 7]).getD d 0 else 0)).sum
      else (remove_list_blanks [Cell.num 3, Cell.num 7]).sum))) :=
  ⟨by decide,
    claim6_monthly_sums none [⟨2024, 1, 10⟩, ⟨2024, 2, 5⟩] [Cell.num 3, Cell.num 7] none
      ⟨2024, 1, 10⟩ ⟨2024, 2, 5⟩ (by decide) (by decide) (by decide) (by decide)
      (by decide) (by decide) rfl⟩

theorem dict_chain_idem2 (cb : Dict) (k1 k2 : String) (v1 v2 : List Cell) (h12 : k1 ≠ k2) :
    dictSet (dictSet (dictSet (dictSet cb k1 v1) k2 v2) k1 v1) k2 v2 =
      dictSet (dictSet cb k1 v1) k2 v2 := by
  have hae1 : allEq (dictSet (dictSet cb k1 v1) k2 v2) k1 v1 :=
    allEq_dictSet_ne _ k1 k2 v1 v2 (Ne.symm h12) (allEq_dictSet_self cb k1 v1)
  have hk1 : hasKey (dictSet (dictSet cb k1 v1) k2 v2) k1 = true := by
    simp [hasKey_dictSet]
  rw [dictSet_eq_self _ k1 v1 hk1 hae1]
  have hae2 : allEq (dictSet (dictSet cb k1 v1) k2 v2) k2 v2 := allEq_dictSet_self _ k2 v2
  have hk2 : hasKey (dictSet (dictSet cb k1 v1) k2 v2) k2 = true := by
    simp [hasKey_dictSet]
  rw [dictSet_eq_self _ k2 v2 hk2 hae2]

/-- Claim C8 (amended): the parser is a pure function of the five stated
inputs plus today's date; with today fixed, re-running the Monthly-type or
Quarterly-type parser on its own unmodified output ledger with the same
transactions returns the identical result — every computed column unchanged.
(The Loan/Default re-parse does not reproduce the computed columns: see the
counterexample.) -/
theorem claim8_amended (category : String) (cb cbq : Dict) (actual : List (Date × ℚ))
    (transactions : Option Trans) (tm : Nat) (ty this_year : Int) :
    (parse_monthly_budget category (parse_monthly_budget category cb actual tm ty).1 actual
        tm ty =
      parse_monthly_budget category cb actual tm ty) ∧
    (parse_quarterly_budget category
        (parse_quarterly_budget category cbq transactions this_year tm).1 transactions
        this_year tm =
      parse_quarterly_budget category cbq transactions this_year tm) := by
  constructor
  · have e1 : (("Planned" : String) = "Spent") = False := eq_false (by decide)
    have e2 : (("Planned" : String) = "Remaining") = False := eq_false (by decide)
    have e3 : (("Planned" : String) = "Spent - Yearly Planned") = False := eq_false (by decide)
    have e4 : (("Next Year" : String) = "Spent") = False := eq_false (by decide)
    have e5 : (("Next Year" : String) = "Remaining") = False := eq_false (by decide)
    have e6 : (("Next Year" : String) = "Spent - Yearly Planned") = False :=
      eq_false (by decide)
    simp only [parse_monthly_budget, dictGet_dictSet, e1, e2, e3, e4, e5, e6, if_false]
    rw [dict_chain_idem cb "Spent - Yearly Planned" "Remaining" "Spent" _ _ _ _
      (by decide) (by decide) (by decide)]
  · have e1 : (("This Year" : String) = "Spent") = False := eq_false (by decide)
    have e2 : (("This Year" : String) = "Remaining") = False := eq_false (by decide)
    have e3 : (("Next Year" : String) = "Spent") = False := eq_false (by decide)
    have e4 : (("Next Year" : String) = "Remaining") = False := eq_false (by decide)
    simp only [parse_quarterly_budget, dictGet_dictSet, e1, e2, e3, e4, if_false]
    rw [dict_chain_idem2 cbq "Spent" "Remaining" _ _ (by decide)]

theorem hasKey_core_eom (a p r : List (Date × ℚ)) (d : Dict) (y : Int) :
    hasKey (make_monthly_table_core a p r d y) "End of Month" = true := by
  simp only [make_monthly_table_core]
  simp [hasKey_dictSet]

theorem core_eom_singleton (r : List (Date × ℚ)) (d : Dict) (s : ℚ) :
    dictGet (make_monthly_table_core [] [((⟨0, 1, 31⟩ : Date), s)] r d 2025)
      "End of Month" = [Cell.date ⟨0, 1, 31⟩] := by
  have hr2 : range_eom_dates ⟨0, 1, 31⟩ ⟨0, 1, 31⟩ = [(⟨0, 1, 31⟩ : Date)] := by decide
  simp only [make_monthly_table_core]
  simp [dictGet_dictSet, hr2]

theorem zip_singleton_char {α : Type} (x : Date) (f : List ℚ → α → List ℚ) (l : List α)
    (hf : ∀ acc b, (f acc b).length = acc.length) :
    ∃ s : ℚ, ([x]).zip (l.foldl f (List.replicate 1 (0 : ℚ))) = [(x, s)] := by
  have hlen : (l.foldl f (List.replicate 1 (0 : ℚ))).length = 1 := by
    rw [foldl_length_inv f hf l]
    rfl
  obtain ⟨q, hq⟩ := List.length_eq_one.1 hlen
  rw [hq]
  exact ⟨q, rfl⟩

theorem loan_reparse_eom (cb : Dict)
    (hP : hasKey cb "Payment" = true) (hDk : hasKey cb "Desc." = true)
    (hD : dictGet cb "Date" = List.replicate 12 (Cell.str "")) :
    (dictGet (okDict (parse_budget "L" cb none [] (CategoryTypes.mk ["L"] [] [] []) 2025
        ⟨2025, 6, 15⟩)) "End of Month").getD 0 (Cell.str "") = Cell.date ⟨0, 1, 31⟩ := by
  have hL : (CategoryTypes.mk ["L"] [] [] []).loan.contains "L" = true := by decide
  have hP2 : hasKey (dictSet cb "Desc." (renameDescs "L" (dictGet cb "Desc."))) "Payment" =
      true := by
    simp [hasKey_dictSet, hP]
  have hD2 : dateCol (dictSet cb "Desc." (renameDescs "L" (dictGet cb "Desc."))) "Date" =
      List.replicate 12 (⟨0, 1, 1⟩ : Date) := by
    rw [dateCol, dictGet_dictSet, if_neg (by decide), hD, List.map_replicate]
    rfl
  have hmg : (List.replicate 12 (⟨0, 1, 1⟩ : Date)).mergeSort dateLEb =
      List.replicate 12 (⟨0, 1, 1⟩ : Date) := List.mergeSort_of_sorted (by decide)
  have hchar : ∀ P : List Cell,
      ∃ s : ℚ, get_monthly_sums none (List.replicate 12 (⟨0, 1, 1⟩ : Date)) P none =
        [((⟨0, 1, 31⟩ : Date), s)] := by
    intro P
    have hne : (List.replicate 12 (⟨0, 1, 1⟩ : Date) = []) = False := by simp
    have hh : (List.replicate 12 (⟨0, 1, 1⟩ : Date)).headD ⟨0, 1, 1⟩ = ⟨0, 1, 1⟩ := rfl
    have hl : (List.replicate 12 (⟨0, 1, 1⟩ : Date)).getLastD ⟨0, 1, 1⟩ = ⟨0, 1, 1⟩ := by
      decide
    have hrange : range_eom_dates ⟨0, 1, 1⟩ ⟨0, 1, 1⟩ = [(⟨0, 1, 31⟩ : Date)] := by decide
    simp only [get_monthly_sums, hne, if_false, hmg, hh, hl, hrange, List.length_singleton]
    refine zip_singleton_char _ _ _ ?_
    intro acc b
    by_cases h : rowCounted none none b
    · simp only [if_pos h]
      split
      · rfl
      · rw [List.length_set]
    · simp only [if_neg h]
  simp only [parse_budget, hDk, if_true, eq_self_iff_true, hL]
  simp only [parse_loan_budget, hP2, eq_self_iff_true, not_true, if_false, hD2]
  obtain ⟨s, hs⟩ := hchar (dictGet (dictSet cb "Desc." (renameDescs "L"
    (dictGet cb "Desc."))) "Payment")
  simp only [hs, make_monthly_table, Except.bind, bind, okDict]
  rw [dictGet_same_len _ "End of Month" (hasKey_core_eom _ _ _ _ _)]
  simp only [core_eom_singleton]
  simp [List.getD_cons_zero]

/-- Claim C8 counterexample, in two parts. First, with every one of the five
stated inputs held fixed (ledger, no transactions, category-type map, expense
plan, year), two runs of `parse_budget` on different days (January 15 vs
June 15, 2025) produce different outputs — the parser also reads today's
date. Second, with today also fixed, re-running the Loan-type parser on its
own unmodified output ledger does not reproduce the computed columns: the
equal-length padding fills the `Date` column with empty strings, so the
re-parse's month table starts at the padding cells' month (year 0) instead
of January 2025 — the idempotence clause fails for the table-building types
(the Python re-parse crashes on the same non-date cells). -/
theorem claim8_counterexample :
    (¬ (parse_budget "X" [("Planned", List.replicate 12 (Cell.num 5))] none []
        (CategoryTypes.mk [] [] [] ["X"]) 2025 ⟨2025, 1, 15⟩ =
       parse_budget "X" [("Planned", List.replicate 12 (Cell.num 5))] none []
        (CategoryTypes.mk [] [] [] ["X"]) 2025 ⟨2025, 6, 15⟩)) ∧
    ((dictGet (okDict (parse_budget "L" [("Payment", [Cell.num 5]), ("Date", []), ("R", []),
        ("Desc.", []), ("Note", [])] none [] (CategoryTypes.mk ["L"] [] [] []) 2025
        ⟨2025, 6, 15⟩)) "End of Month").getD 0 (Cell.str "") = Cell.date ⟨2025, 1, 31⟩ ∧
     (dictGet (okDict (parse_budget "L" (okDict (parse_budget "L"
        [("Payment", [Cell.num 5]), ("Date", []), ("R", []), ("Desc.", []), ("Note", [])]
        none [] (CategoryTypes.mk ["L"] [] [] []) 2025 ⟨2025, 6, 15⟩)) none []
        (CategoryTypes.mk ["L"] [] [] []) 2025 ⟨2025, 6, 15⟩)) "End of Month").getD 0
        (Cell.str "") = Cell.date ⟨0, 1, 31⟩ ∧
     Cell.date ⟨0, 1, 31⟩ ≠ Cell.date ⟨2025, 1, 31⟩) := by
  refine ⟨?_, ?_, ?_, by decide⟩
  · intro h
    have h2 : (dictGet (okDict (parse_budget "X" [("Planned", List.replicate 12 (Cell.num 5))]
          none [] (CategoryTypes.mk [] [] [] ["X"]) 2025 ⟨2025, 1, 15⟩)) "Remaining").getD 1
          (Cell.str "") =
        (dictGet (okDict (parse_budget "X" [("Planned", List.replicate 12 (Cell.num 5))]
          none [] (CategoryTypes.mk [] [] [] ["X"]) 2025 ⟨2025, 6, 15⟩)) "Remaining").getD 1
          (Cell.str "") := by
      rw [h]
    have e1 : (dictGet (okDict (parse_budget "X" [("Planned", List.replicate 12 (Cell.num 5))]
        none [] (CategoryTypes.mk [] [] [] ["X"]) 2025 ⟨2025, 1, 15⟩)) "Remaining").getD 1
        (Cell.str "") = Cell.num 5 := rfl
    have e2 : (dictGet (okDict (parse_budget "X" [("Planned", List.replicate 12 (Cell.num 5))]
        none [] (CategoryTypes.mk [] [] [] ["X"]) 2025 ⟨2025, 6, 15⟩)) "Remaining").getD 1
        (Cell.str "") = Cell.num 0 := rfl
    rw [e1, e2] at h2
    exact absurd h2 (by decide)
  · rfl
  · exact loan_reparse_eom _ rfl rfl rfl

end MoneyMage
